import Mathlib

/-!
# Cross-verification drivers of qrypto.js against the pq-crystals reference

A shallow embedding of the four C programs under `.github/cross-verify/`:

* `dilithium5_verify_ref.c`, `mldsa87_verify_ref.c`: read the artifacts written by
  qrypto.js and call the reference `crypto_sign_verify`;
* `dilithium5_sign_ref.c`, `mldsa87_sign_ref.c`: generate a key pair, sign a fixed
  message, self-verify and write the artifacts for qrypto.js.

Modelling conventions.

* A byte (`uint8_t`) is a natural number; the drivers never compute on bytes.
* `params.h` and `sign.h` belong to pq-crystals, not to this repository.  The size
  constants are the fields of `Params`; `crypto_sign_keypair`,
  `crypto_sign_signature` and `crypto_sign_verify` are arguments of each `main`.
* A `(pointer, length)` argument of the reference API is passed as the `length`
  bytes found at the pointer, together with the length.
* The file system maps a path to the content of the file there (`none`: `fopen`
  for reading fails) and says for which paths `fopen(path, "wb")` succeeds.
* A run yields a `Run`: how the program ended, and the `World` at that point
  (file system, streams still open, the `printf` calls made, the calls made to
  `crypto_sign_verify`).  Passing a null stream to `fwrite`, or asking `fwrite`
  for more bytes than the array holds, is undefined behaviour in C and ends the
  run with `Status.undefined`.
-/

namespace CrossVerify

/-! ## Data model -/

abbrev Byte := Nat
abbrev Bytes := List Byte
abbrev Path := String

/-- Size constants that `params.h` of pq-crystals defines for the mode compiled in. -/
structure Params where
  CRYPTO_PUBLICKEYBYTES : Nat
  CRYPTO_SECRETKEYBYTES : Nat
  CRYPTO_BYTES : Nat

/-- Content of a C array `uint8_t a[n]`. -/
abbrev Buf (n : Nat) : Type := { l : Bytes // l.length = n }

/-- Files by path, and the paths at which a file can be opened for writing. -/
structure FileSystem where
  content : Path → Option Bytes
  writable : Path → Bool

/-- File system in which the file at `path` holds `data`. -/
def FileSystem.store (fs : FileSystem) (path : Path) (data : Bytes) : FileSystem :=
  { fs with content := fun p => if p = path then some data else fs.content p }

/-- Argument of a `printf` conversion: `%d` and `%zu` take a number, `%s` a string. -/
inductive PrintfArg where
  | num (n : Nat)
  | str (s : Bytes)
  deriving DecidableEq

/-- One call of `printf`: the format string and the values of its conversions. -/
structure Printf where
  fmt : String
  args : List PrintfArg
  deriving DecidableEq

/-- One call of the reference `crypto_sign_verify`; the ML-DSA API takes a context. -/
inductive Call where
  | verify (sig : Bytes) (siglen : Nat) (m : Bytes) (mlen : Nat) (pk : Bytes)
  | verify_ctx (sig : Bytes) (siglen : Nat) (m : Bytes) (mlen : Nat)
      (ctx : Bytes) (ctxlen : Nat) (pk : Bytes)
  deriving DecidableEq

/-- An open stream (a non-null `FILE *`). -/
structure FILE where
  path : Path
  deriving DecidableEq

/-- Modes in which the drivers call `fopen`. -/
inductive Mode where
  | rb
  | wb
  deriving DecidableEq

/-- State of a run: the file system, the streams opened and not yet closed, the
`printf` calls made and the calls made to `crypto_sign_verify`, oldest first. -/
structure World where
  fs : FileSystem
  streams : List FILE
  stdout : List Printf
  calls : List Call

/-- How a run ends: `main` returns `code`, or undefined behaviour is reached. -/
inductive Status where
  | exited (code : Int)
  | undefined
  deriving DecidableEq

/-- Result of running a driver. -/
structure Run where
  status : Status
  world : World

/-! ## The C library calls the drivers make -/

/-- State in which `main` is entered. -/
def World.start (fs : FileSystem) : World :=
  { fs := fs, streams := [], stdout := [], calls := [] }

/-- C `printf`: the call is appended to the output. -/
def printf (w : World) (fmt : String) (args : List PrintfArg) : World :=
  { w with stdout := w.stdout ++ [{ fmt := fmt, args := args }] }

/-- Records a call of the reference verification routine. -/
def called (w : World) (c : Call) : World :=
  { w with calls := w.calls ++ [c] }

/-- C `fopen`: `none` is the null pointer.  Mode `"rb"` needs an existing file;
mode `"wb"` needs a writable path and truncates the file to length zero. -/
def fopen (w : World) (path : Path) : Mode → Option FILE × World
  | .rb =>
    match w.fs.content path with
    | none => (none, w)
    | some _ => (some { path := path }, { w with streams := { path := path } :: w.streams })
  | .wb =>
    if w.fs.writable path then
      (some { path := path },
        { w with fs := w.fs.store path [], streams := { path := path } :: w.streams })
    else (none, w)

/-- C `fread(buf, 1, n, f)` on a stream just opened (every stream of the drivers is
read once, right after `fopen`): the bytes stored in `buf`, at most `n` from the start
of the file; the value `fread` returns is their number. -/
def fread (w : World) (n : Nat) (f : FILE) : Bytes :=
  ((w.fs.content f.path).getD []).take n

/-- C `fwrite(buf, 1, n, f)` on an open stream: appends the first `n` bytes of
`buf` to the file; `none` (undefined behaviour) when `n` exceeds the size of `buf`. -/
def fwrite (w : World) (buf : Bytes) (n : Nat) (f : FILE) : Option World :=
  if n ≤ buf.length then
    some { w with fs := w.fs.store f.path (((w.fs.content f.path).getD []) ++ buf.take n) }
  else none

/-- C `fclose` on an open stream: the stream is no longer open. -/
def fclose (w : World) (f : FILE) : World :=
  { w with streams := w.streams.erase f }

/-- C `strlen`: the number of bytes before the first zero byte. -/
def strlen (s : Bytes) : Nat :=
  (s.takeWhile (fun b => b != 0)).length

/-- Array `uint8_t a[] = "..."` for an ASCII literal: its characters and a final zero. -/
def cstring (s : String) : Bytes :=
  s.toList.map Char.toNat ++ [0]

/-! ## dilithium5_verify_ref.c -/

def dilithium5_verify_ref.main (P : Params)
    (crypto_sign_verify : Bytes → Nat → Bytes → Nat → Bytes → Int)
    (fs : FileSystem) : Run :=
  let w := World.start fs
  match fopen w "/tmp/qrypto_dilithium5_pk.bin" .rb with
  | (none, w) => { status := .exited 1, world := printf w "Cannot open pk\n" [] }
  | (some f, w) =>
  let pk := fread w P.CRYPTO_PUBLICKEYBYTES f
  if pk.length ≠ P.CRYPTO_PUBLICKEYBYTES then
    -- returns without `fclose(f)`
    { status := .exited 1, world := printf w "Failed to read pk\n" [] }
  else
  let w := fclose w f
  match fopen w "/tmp/qrypto_dilithium5_sig.bin" .rb with
  | (none, w) => { status := .exited 1, world := printf w "Cannot open sig\n" [] }
  | (some f, w) =>
  let sig := fread w P.CRYPTO_BYTES f
  let siglen := sig.length
  let w := fclose w f
  match fopen w "/tmp/qrypto_dilithium5_msg.bin" .rb with
  | (none, w) => { status := .exited 1, world := printf w "Cannot open msg\n" [] }
  | (some f, w) =>
  let msg := fread w 256 f
  let msglen := msg.length
  let w := fclose w f
  let w := printf w "=== pq-crystals Dilithium5 Verification ===\n" []
  let w := printf w "PK size:  %d bytes\n" [.num P.CRYPTO_PUBLICKEYBYTES]
  let w := printf w "Sig size: %zu bytes\n" [.num siglen]
  let w := printf w "Msg size: %zu bytes\n" [.num msglen]
  let ret := crypto_sign_verify sig siglen msg msglen pk
  let w := called w (.verify sig siglen msg msglen pk)
  let w :=
    if ret = 0 then printf w "\n✓ Signature verification PASSED\n" []
    else printf w "\n✗ Signature verification FAILED\n" []
  { status := .exited (if ret ≠ 0 then 1 else 0), world := w }

/-! ## mldsa87_verify_ref.c -/

def mldsa87_verify_ref.main (P : Params)
    (crypto_sign_verify : Bytes → Nat → Bytes → Nat → Bytes → Nat → Bytes → Int)
    (fs : FileSystem) : Run :=
  let w := World.start fs
  match fopen w "/tmp/qrypto_mldsa87_pk.bin" .rb with
  | (none, w) => { status := .exited 1, world := printf w "Cannot open pk\n" [] }
  | (some f, w) =>
  let pk := fread w P.CRYPTO_PUBLICKEYBYTES f
  if pk.length ≠ P.CRYPTO_PUBLICKEYBYTES then
    -- returns without `fclose(f)`
    { status := .exited 1, world := printf w "Failed to read pk\n" [] }
  else
  let w := fclose w f
  match fopen w "/tmp/qrypto_mldsa87_sig.bin" .rb with
  | (none, w) => { status := .exited 1, world := printf w "Cannot open sig\n" [] }
  | (some f, w) =>
  let sig := fread w P.CRYPTO_BYTES f
  let siglen := sig.length
  let w := fclose w f
  match fopen w "/tmp/qrypto_mldsa87_msg.bin" .rb with
  | (none, w) => { status := .exited 1, world := printf w "Cannot open msg\n" [] }
  | (some f, w) =>
  let msg := fread w 256 f
  let msglen := msg.length
  let w := fclose w f
  match fopen w "/tmp/qrypto_mldsa87_ctx.bin" .rb with
  | (none, w) => { status := .exited 1, world := printf w "Cannot open ctx\n" [] }
  | (some f, w) =>
  let ctx := fread w 256 f
  let ctxlen := ctx.length
  let w := fclose w f
  let w := printf w "=== pq-crystals ML-DSA-87 Verification ===\n" []
  let w := printf w "PK size:  %d bytes\n" [.num P.CRYPTO_PUBLICKEYBYTES]
  let w := printf w "Sig size: %zu bytes\n" [.num siglen]
  let w := printf w "Msg size: %zu bytes\n" [.num msglen]
  let w := printf w "Ctx size: %zu bytes\n" [.num ctxlen]
  let ret := crypto_sign_verify sig siglen msg msglen ctx ctxlen pk
  let w := called w (.verify_ctx sig siglen msg msglen ctx ctxlen pk)
  let w :=
    if ret = 0 then printf w "\n✓ Signature verification PASSED\n" []
    else printf w "\n✗ Signature verification FAILED\n" []
  { status := .exited (if ret ≠ 0 then 1 else 0), world := w }

/-! ## dilithium5_sign_ref.c -/

def dilithium5_sign_ref.main (P : Params)
    (crypto_sign_keypair : Buf P.CRYPTO_PUBLICKEYBYTES × Buf P.CRYPTO_SECRETKEYBYTES)
    (crypto_sign_signature : Bytes → Nat → Bytes → Buf P.CRYPTO_BYTES × Nat)
    (crypto_sign_verify : Bytes → Nat → Bytes → Nat → Bytes → Int)
    (fs : FileSystem) : Run :=
  let w := World.start fs
  let w := printf w "=== pq-crystals Dilithium5 Signature Generation ===\n" []
  let pk := crypto_sign_keypair.1
  let sk := crypto_sign_keypair.2
  let msg := cstring "Cross-verification test message from pq-crystals Dilithium5"
  let msglen := strlen msg
  let sig := (crypto_sign_signature (msg.take msglen) msglen sk.val).1
  let siglen := (crypto_sign_signature (msg.take msglen) msglen sk.val).2
  let ret := crypto_sign_verify (sig.val.take siglen) siglen (msg.take msglen) msglen pk.val
  let w := called w (.verify (sig.val.take siglen) siglen (msg.take msglen) msglen pk.val)
  if ret ≠ 0 then
    { status := .exited 1, world := printf w "Self-verification failed!\n" [] }
  else
  let w := printf w "PK size:  %d bytes\n" [.num P.CRYPTO_PUBLICKEYBYTES]
  let w := printf w "SK size:  %d bytes\n" [.num P.CRYPTO_SECRETKEYBYTES]
  let w := printf w "Sig size: %zu bytes\n" [.num siglen]
  let w := printf w "Message:  \"%s\"\n" [.str (msg.take (strlen msg))]
  let w := printf w "Self-verify: PASSED\n" []
  match fopen w "/tmp/ref_dilithium5_pk.bin" .wb with
  | (none, w) => { status := .undefined, world := w } -- `fwrite(pk, ..., NULL)`
  | (some f, w) =>
  match fwrite w pk.val P.CRYPTO_PUBLICKEYBYTES f with
  | none => { status := .undefined, world := w }
  | some w =>
  let w := fclose w f
  match fopen w "/tmp/ref_dilithium5_sig.bin" .wb with
  | (none, w) => { status := .undefined, world := w } -- `fwrite(sig, ..., NULL)`
  | (some f, w) =>
  match fwrite w sig.val siglen f with
  | none => { status := .undefined, world := w } -- `siglen` exceeds `sizeof sig`
  | some w =>
  let w := fclose w f
  match fopen w "/tmp/ref_dilithium5_msg.bin" .wb with
  | (none, w) => { status := .undefined, world := w } -- `fwrite(msg, ..., NULL)`
  | (some f, w) =>
  match fwrite w msg msglen f with
  | none => { status := .undefined, world := w }
  | some w =>
  let w := fclose w f
  let w := printf w "\nOutput files written:\n" []
  let w := printf w "  /tmp/ref_dilithium5_pk.bin\n" []
  let w := printf w "  /tmp/ref_dilithium5_sig.bin\n" []
  let w := printf w "  /tmp/ref_dilithium5_msg.bin\n" []
  let w := printf w "\n✓ pq-crystals signature generation complete\n" []
  { status := .exited 0, world := w }

/-! ## mldsa87_sign_ref.c -/

def mldsa87_sign_ref.main (P : Params)
    (crypto_sign_keypair : Buf P.CRYPTO_PUBLICKEYBYTES × Buf P.CRYPTO_SECRETKEYBYTES)
    (crypto_sign_signature : Bytes → Nat → Bytes → Nat → Bytes → Buf P.CRYPTO_BYTES × Nat)
    (crypto_sign_verify : Bytes → Nat → Bytes → Nat → Bytes → Nat → Bytes → Int)
    (fs : FileSystem) : Run :=
  let w := World.start fs
  let w := printf w "=== pq-crystals ML-DSA-87 Signature Generation ===\n" []
  let pk := crypto_sign_keypair.1
  let sk := crypto_sign_keypair.2
  let ctx := cstring "ZOND"
  let ctxlen := strlen ctx
  let msg := cstring "Cross-verification test message from pq-crystals ML-DSA-87"
  let msglen := strlen msg
  let sig :=
    (crypto_sign_signature (msg.take msglen) msglen (ctx.take ctxlen) ctxlen sk.val).1
  let siglen :=
    (crypto_sign_signature (msg.take msglen) msglen (ctx.take ctxlen) ctxlen sk.val).2
  let ret := crypto_sign_verify (sig.val.take siglen) siglen (msg.take msglen) msglen
    (ctx.take ctxlen) ctxlen pk.val
  let w := called w (.verify_ctx (sig.val.take siglen) siglen (msg.take msglen) msglen
    (ctx.take ctxlen) ctxlen pk.val)
  if ret ≠ 0 then
    { status := .exited 1, world := printf w "Self-verification failed!\n" [] }
  else
  let w := printf w "PK size:  %d bytes\n" [.num P.CRYPTO_PUBLICKEYBYTES]
  let w := printf w "SK size:  %d bytes\n" [.num P.CRYPTO_SECRETKEYBYTES]
  let w := printf w "Sig size: %zu bytes\n" [.num siglen]
  let w := printf w "Context:  \"%s\"\n" [.str (ctx.take (strlen ctx))]
  let w := printf w "Message:  \"%s\"\n" [.str (msg.take (strlen msg))]
  let w := printf w "Self-verify: PASSED\n" []
  match fopen w "/tmp/ref_mldsa87_pk.bin" .wb with
  | (none, w) => { status := .undefined, world := w } -- `fwrite(pk, ..., NULL)`
  | (some f, w) =>
  match fwrite w pk.val P.CRYPTO_PUBLICKEYBYTES f with
  | none => { status := .undefined, world := w }
  | some w =>
  let w := fclose w f
  match fopen w "/tmp/ref_mldsa87_sig.bin" .wb with
  | (none, w) => { status := .undefined, world := w } -- `fwrite(sig, ..., NULL)`
  | (some f, w) =>
  match fwrite w sig.val siglen f with
  | none => { status := .undefined, world := w } -- `siglen` exceeds `sizeof sig`
  | some w =>
  let w := fclose w f
  match fopen w "/tmp/ref_mldsa87_msg.bin" .wb with
  | (none, w) => { status := .undefined, world := w } -- `fwrite(msg, ..., NULL)`
  | (some f, w) =>
  match fwrite w msg msglen f with
  | none => { status := .undefined, world := w }
  | some w =>
  let w := fclose w f
  match fopen w "/tmp/ref_mldsa87_ctx.bin" .wb with
  | (none, w) => { status := .undefined, world := w } -- `fwrite(ctx, ..., NULL)`
  | (some f, w) =>
  match fwrite w ctx ctxlen f with
  | none => { status := .undefined, world := w }
  | some w =>
  let w := fclose w f
  let w := printf w "\nOutput files written:\n" []
  let w := printf w "  /tmp/ref_mldsa87_pk.bin\n" []
  let w := printf w "  /tmp/ref_mldsa87_sig.bin\n" []
  let w := printf w "  /tmp/ref_mldsa87_msg.bin\n" []
  let w := printf w "  /tmp/ref_mldsa87_ctx.bin\n" []
  let w := printf w "\n✓ pq-crystals signature generation complete\n" []
  { status := .exited 0, world := w }

/-! ## Values named in the statements, and concrete inputs -/

/-- The Dilithium5 test message, without the terminating zero byte. -/
def testMessage5 : Bytes :=
  "Cross-verification test message from pq-crystals Dilithium5".toList.map Char.toNat

/-- The ML-DSA-87 test message, without the terminating zero byte. -/
def testMessage87 : Bytes :=
  "Cross-verification test message from pq-crystals ML-DSA-87".toList.map Char.toNat

/-- The four bytes of the context string `ZOND`. -/
def testContext : Bytes := [90, 79, 78, 68]

/-- Diagnostics the verification drivers print when `fopen` returns null. -/
def cannotOpenDiagnostics : List Printf :=
  [{ fmt := "Cannot open pk\n", args := [] }, { fmt := "Cannot open sig\n", args := [] },
   { fmt := "Cannot open msg\n", args := [] }, { fmt := "Cannot open ctx\n", args := [] }]

/-- Diagnostic the verification drivers print when the public key file is too short. -/
def failedToReadPk : Printf := { fmt := "Failed to read pk\n", args := [] }

/-- Constants of pq-crystals Dilithium in mode 5 (round 3), used as a concrete input. -/
def dilithium5Params : Params :=
  { CRYPTO_PUBLICKEYBYTES := 2592, CRYPTO_SECRETKEYBYTES := 4864, CRYPTO_BYTES := 4595 }

/-- Constants of pq-crystals ML-DSA-87, used as a concrete input. -/
def mldsa87Params : Params :=
  { CRYPTO_PUBLICKEYBYTES := 2592, CRYPTO_SECRETKEYBYTES := 4896, CRYPTO_BYTES := 4627 }

/-- Small constants, used as a concrete input. -/
def tinyParams : Params :=
  { CRYPTO_PUBLICKEYBYTES := 2, CRYPTO_SECRETKEYBYTES := 3, CRYPTO_BYTES := 4 }

/-- File system holding exactly the given files; every path is writable. -/
def filesOf (files : List (Path × Bytes)) : FileSystem :=
  { content := fun p => (files.find? (fun e => e.1 == p)).map (fun e => e.2),
    writable := fun _ => true }

/-- Verification routine that rejects everything. -/
def rejectAll : Bytes → Nat → Bytes → Nat → Bytes → Int := fun _ _ _ _ _ => -1

/-- Verification routine with context that rejects everything. -/
def rejectAllCtx : Bytes → Nat → Bytes → Nat → Bytes → Nat → Bytes → Int :=
  fun _ _ _ _ _ _ _ => -1

/-- A public key for `tinyParams`. -/
def tinyPk : Buf tinyParams.CRYPTO_PUBLICKEYBYTES := ⟨[1, 2], rfl⟩

/-- A secret key for `tinyParams`. -/
def tinySk : Buf tinyParams.CRYPTO_SECRETKEYBYTES := ⟨[3, 4, 5], rfl⟩

/-- A signature buffer for `tinyParams`. -/
def tinySig : Buf tinyParams.CRYPTO_BYTES := ⟨[6, 7, 8, 9], rfl⟩

/-- Signing routine that fills three bytes of the signature buffer. -/
def tinySign : Bytes → Nat → Bytes → Buf tinyParams.CRYPTO_BYTES × Nat :=
  fun _ _ _ => (tinySig, 3)

/-- Signing routine with context that fills three bytes of the signature buffer. -/
def tinySignCtx : Bytes → Nat → Bytes → Nat → Bytes → Buf tinyParams.CRYPTO_BYTES × Nat :=
  fun _ _ _ _ _ => (tinySig, 3)

/-- Verification routine that, like the reference, rejects any length other than
`CRYPTO_BYTES` (4595 here), and accepts exactly the signature of 4595 bytes `1`. -/
def strictVerify : Bytes → Nat → Bytes → Nat → Bytes → Int :=
  fun sig siglen _ _ _ => if siglen = 4595 ∧ sig = List.replicate 4595 1 then 0 else -1

/-- Artifacts for Dilithium5 whose signature file is the signature accepted by
`strictVerify` followed by one more byte. -/
def paddedSigFiles : FileSystem :=
  filesOf [("/tmp/qrypto_dilithium5_pk.bin", List.replicate 2592 0),
    ("/tmp/qrypto_dilithium5_sig.bin", List.replicate 4595 1 ++ [0]),
    ("/tmp/qrypto_dilithium5_msg.bin", testMessage5)]

/-- File system with no file and no writable path. -/
def readOnly : FileSystem :=
  { content := fun _ => none, writable := fun _ => false }

/-- Array of `n` zero bytes. -/
def zeroBuf (n : Nat) : Buf n := ⟨List.replicate n 0, List.length_replicate n 0⟩

/-- Signing routine that fills the whole signature buffer. -/
def fullSign (P : Params) : Bytes → Nat → Bytes → Buf P.CRYPTO_BYTES × Nat :=
  fun _ _ _ => (zeroBuf P.CRYPTO_BYTES, P.CRYPTO_BYTES)

/-- Signing routine with context that fills the whole signature buffer. -/
def fullSignCtx (P : Params) : Bytes → Nat → Bytes → Nat → Bytes → Buf P.CRYPTO_BYTES × Nat :=
  fun _ _ _ _ _ => (zeroBuf P.CRYPTO_BYTES, P.CRYPTO_BYTES)

/-- Verification routine that accepts everything. -/
def acceptAll : Bytes → Nat → Bytes → Nat → Bytes → Int := fun _ _ _ _ _ => 0

/-- Verification routine with context that accepts everything. -/
def acceptAllCtx : Bytes → Nat → Bytes → Nat → Bytes → Nat → Bytes → Int :=
  fun _ _ _ _ _ _ _ => 0

/-- Verdict line of a successful verification. -/
def PASSED : Printf := { fmt := "\n✓ Signature verification PASSED\n", args := [] }
/-- Verdict line of a failed verification. -/
def FAILED : Printf := { fmt := "\n✗ Signature verification FAILED\n", args := [] }

/-! ## Closed forms of the verification drivers -/

theorem d5v_no_pk (P : Params) (verify : Bytes → Nat → Bytes → Nat → Bytes → Int)
    (fs : FileSystem) (hpk : fs.content "/tmp/qrypto_dilithium5_pk.bin" = none) :
    dilithium5_verify_ref.main P verify fs =
      { status := .exited 1,
        world := { fs := fs, streams := [], calls := [],
                   stdout := [{ fmt := "Cannot open pk\n", args := [] }] } } := by
  simp [dilithium5_verify_ref.main, fopen, World.start, printf, hpk]

theorem d5v_short_pk (P : Params) (verify : Bytes → Nat → Bytes → Nat → Bytes → Int)
    (fs : FileSystem) (pk : Bytes)
    (hpk : fs.content "/tmp/qrypto_dilithium5_pk.bin" = some pk)
    (hlen : pk.length < P.CRYPTO_PUBLICKEYBYTES) :
    dilithium5_verify_ref.main P verify fs =
      { status := .exited 1,
        world := { fs := fs, streams := [{ path := "/tmp/qrypto_dilithium5_pk.bin" }],
                   calls := [],
                   stdout := [{ fmt := "Failed to read pk\n", args := [] }] } } := by
  have h : ¬ P.CRYPTO_PUBLICKEYBYTES ≤ pk.length := by omega
  simp [dilithium5_verify_ref.main, fopen, fread, World.start, printf, hpk, h]

theorem d5v_no_sig (P : Params) (verify : Bytes → Nat → Bytes → Nat → Bytes → Int)
    (fs : FileSystem) (pk : Bytes)
    (hpk : fs.content "/tmp/qrypto_dilithium5_pk.bin" = some pk)
    (hlen : P.CRYPTO_PUBLICKEYBYTES ≤ pk.length)
    (hsig : fs.content "/tmp/qrypto_dilithium5_sig.bin" = none) :
    dilithium5_verify_ref.main P verify fs =
      { status := .exited 1,
        world := { fs := fs, streams := [], calls := [],
                   stdout := [{ fmt := "Cannot open sig\n", args := [] }] } } := by
  have h := hlen
  simp [dilithium5_verify_ref.main, fopen, fread, fclose, World.start, printf, hpk, hsig, h]

theorem d5v_no_msg (P : Params) (verify : Bytes → Nat → Bytes → Nat → Bytes → Int)
    (fs : FileSystem) (pk sig : Bytes)
    (hpk : fs.content "/tmp/qrypto_dilithium5_pk.bin" = some pk)
    (hlen : P.CRYPTO_PUBLICKEYBYTES ≤ pk.length)
    (hsig : fs.content "/tmp/qrypto_dilithium5_sig.bin" = some sig)
    (hmsg : fs.content "/tmp/qrypto_dilithium5_msg.bin" = none) :
    dilithium5_verify_ref.main P verify fs =
      { status := .exited 1,
        world := { fs := fs, streams := [], calls := [],
                   stdout := [{ fmt := "Cannot open msg\n", args := [] }] } } := by
  have h := hlen
  simp [dilithium5_verify_ref.main, fopen, fread, fclose, World.start, printf, hpk, hsig,
    hmsg, h]

theorem d5v_loaded (P : Params) (verify : Bytes → Nat → Bytes → Nat → Bytes → Int)
    (fs : FileSystem) (pk sig msg : Bytes)
    (hpk : fs.content "/tmp/qrypto_dilithium5_pk.bin" = some pk)
    (hlen : P.CRYPTO_PUBLICKEYBYTES ≤ pk.length)
    (hsig : fs.content "/tmp/qrypto_dilithium5_sig.bin" = some sig)
    (hmsg : fs.content "/tmp/qrypto_dilithium5_msg.bin" = some msg) :
    dilithium5_verify_ref.main P verify fs =
      { status := .exited
          (if verify (sig.take P.CRYPTO_BYTES) (sig.take P.CRYPTO_BYTES).length
              (msg.take 256) (msg.take 256).length (pk.take P.CRYPTO_PUBLICKEYBYTES) ≠ 0
           then 1 else 0),
        world := { fs := fs, streams := [],
                   calls := [.verify (sig.take P.CRYPTO_BYTES) (sig.take P.CRYPTO_BYTES).length
                     (msg.take 256) (msg.take 256).length (pk.take P.CRYPTO_PUBLICKEYBYTES)],
                   stdout := [
                     { fmt := "=== pq-crystals Dilithium5 Verification ===\n", args := [] },
                     { fmt := "PK size:  %d bytes\n", args := [.num P.CRYPTO_PUBLICKEYBYTES] },
                     { fmt := "Sig size: %zu bytes\n",
                       args := [.num (sig.take P.CRYPTO_BYTES).length] },
                     { fmt := "Msg size: %zu bytes\n", args := [.num (msg.take 256).length] },
                     if verify (sig.take P.CRYPTO_BYTES) (sig.take P.CRYPTO_BYTES).length
                         (msg.take 256) (msg.take 256).length
                         (pk.take P.CRYPTO_PUBLICKEYBYTES) = 0
                     then PASSED else FAILED] } } := by
  have h := hlen
  by_cases hv : verify (sig.take P.CRYPTO_BYTES) (sig.take P.CRYPTO_BYTES).length
      (msg.take 256) (msg.take 256).length (pk.take P.CRYPTO_PUBLICKEYBYTES) = 0 <;>
  simp only [List.length_take] at hv <;>
  simp [dilithium5_verify_ref.main, fopen, fread, fclose, World.start, printf, called,
    hpk, hsig, hmsg, h, PASSED, FAILED, hv]

theorem m87v_no_pk (P : Params)
    (verify : Bytes → Nat → Bytes → Nat → Bytes → Nat → Bytes → Int)
    (fs : FileSystem) (hpk : fs.content "/tmp/qrypto_mldsa87_pk.bin" = none) :
    mldsa87_verify_ref.main P verify fs =
      { status := .exited 1,
        world := { fs := fs, streams := [], calls := [],
                   stdout := [{ fmt := "Cannot open pk\n", args := [] }] } } := by
  simp [mldsa87_verify_ref.main, fopen, World.start, printf, hpk]

theorem m87v_short_pk (P : Params)
    (verify : Bytes → Nat → Bytes → Nat → Bytes → Nat → Bytes → Int)
    (fs : FileSystem) (pk : Bytes)
    (hpk : fs.content "/tmp/qrypto_mldsa87_pk.bin" = some pk)
    (hlen : pk.length < P.CRYPTO_PUBLICKEYBYTES) :
    mldsa87_verify_ref.main P verify fs =
      { status := .exited 1,
        world := { fs := fs, streams := [{ path := "/tmp/qrypto_mldsa87_pk.bin" }],
                   calls := [],
                   stdout := [{ fmt := "Failed to read pk\n", args := [] }] } } := by
  have h : ¬ P.CRYPTO_PUBLICKEYBYTES ≤ pk.length := by omega
  simp [mldsa87_verify_ref.main, fopen, fread, World.start, printf, hpk, h]

theorem m87v_no_sig (P : Params)
    (verify : Bytes → Nat → Bytes → Nat → Bytes → Nat → Bytes → Int)
    (fs : FileSystem) (pk : Bytes)
    (hpk : fs.content "/tmp/qrypto_mldsa87_pk.bin" = some pk)
    (hlen : P.CRYPTO_PUBLICKEYBYTES ≤ pk.length)
    (hsig : fs.content "/tmp/qrypto_mldsa87_sig.bin" = none) :
    mldsa87_verify_ref.main P verify fs =
      { status := .exited 1,
        world := { fs := fs, streams := [], calls := [],
                   stdout := [{ fmt := "Cannot open sig\n", args := [] }] } } := by
  simp [mldsa87_verify_ref.main, fopen, fread, fclose, World.start, printf, hpk, hsig, hlen]

theorem m87v_no_msg (P : Params)
    (verify : Bytes → Nat → Bytes → Nat → Bytes → Nat → Bytes → Int)
    (fs : FileSystem) (pk sig : Bytes)
    (hpk : fs.content "/tmp/qrypto_mldsa87_pk.bin" = some pk)
    (hlen : P.CRYPTO_PUBLICKEYBYTES ≤ pk.length)
    (hsig : fs.content "/tmp/qrypto_mldsa87_sig.bin" = some sig)
    (hmsg : fs.content "/tmp/qrypto_mldsa87_msg.bin" = none) :
    mldsa87_verify_ref.main P verify fs =
      { status := .exited 1,
        world := { fs := fs, streams := [], calls := [],
                   stdout := [{ fmt := "Cannot open msg\n", args := [] }] } } := by
  simp [mldsa87_verify_ref.main, fopen, fread, fclose, World.start, printf, hpk, hsig,
    hmsg, hlen]

theorem m87v_no_ctx (P : Params)
    (verify : Bytes → Nat → Bytes → Nat → Bytes → Nat → Bytes → Int)
    (fs : FileSystem) (pk sig msg : Bytes)
    (hpk : fs.content "/tmp/qrypto_mldsa87_pk.bin" = some pk)
    (hlen : P.CRYPTO_PUBLICKEYBYTES ≤ pk.length)
    (hsig : fs.content "/tmp/qrypto_mldsa87_sig.bin" = some sig)
    (hmsg : fs.content "/tmp/qrypto_mldsa87_msg.bin" = some msg)
    (hctx : fs.content "/tmp/qrypto_mldsa87_ctx.bin" = none) :
    mldsa87_verify_ref.main P verify fs =
      { status := .exited 1,
        world := { fs := fs, streams := [], calls := [],
                   stdout := [{ fmt := "Cannot open ctx\n", args := [] }] } } := by
  simp [mldsa87_verify_ref.main, fopen, fread, fclose, World.start, printf, hpk, hsig,
    hmsg, hctx, hlen]

theorem m87v_loaded (P : Params)
    (verify : Bytes → Nat → Bytes → Nat → Bytes → Nat → Bytes → Int)
    (fs : FileSystem) (pk sig msg ctx : Bytes)
    (hpk : fs.content "/tmp/qrypto_mldsa87_pk.bin" = some pk)
    (hlen : P.CRYPTO_PUBLICKEYBYTES ≤ pk.length)
    (hsig : fs.content "/tmp/qrypto_mldsa87_sig.bin" = some sig)
    (hmsg : fs.content "/tmp/qrypto_mldsa87_msg.bin" = some msg)
    (hctx : fs.content "/tmp/qrypto_mldsa87_ctx.bin" = some ctx) :
    mldsa87_verify_ref.main P verify fs =
      { status := .exited
          (if verify (sig.take P.CRYPTO_BYTES) (sig.take P.CRYPTO_BYTES).length
              (msg.take 256) (msg.take 256).length (ctx.take 256) (ctx.take 256).length
              (pk.take P.CRYPTO_PUBLICKEYBYTES) ≠ 0
           then 1 else 0),
        world := { fs := fs, streams := [],
                   calls := [.verify_ctx (sig.take P.CRYPTO_BYTES)
                     (sig.take P.CRYPTO_BYTES).length (msg.take 256) (msg.take 256).length
                     (ctx.take 256) (ctx.take 256).length (pk.take P.CRYPTO_PUBLICKEYBYTES)],
                   stdout := [
                     { fmt := "=== pq-crystals ML-DSA-87 Verification ===\n", args := [] },
                     { fmt := "PK size:  %d bytes\n", args := [.num P.CRYPTO_PUBLICKEYBYTES] },
                     { fmt := "Sig size: %zu bytes\n",
                       args := [.num (sig.take P.CRYPTO_BYTES).length] },
                     { fmt := "Msg size: %zu bytes\n", args := [.num (msg.take 256).length] },
                     { fmt := "Ctx size: %zu bytes\n", args := [.num (ctx.take 256).length] },
                     if verify (sig.take P.CRYPTO_BYTES) (sig.take P.CRYPTO_BYTES).length
                         (msg.take 256) (msg.take 256).length
                         (ctx.take 256) (ctx.take 256).length
                         (pk.take P.CRYPTO_PUBLICKEYBYTES) = 0
                     then PASSED else FAILED] } } := by
  by_cases hv : verify (sig.take P.CRYPTO_BYTES) (sig.take P.CRYPTO_BYTES).length
      (msg.take 256) (msg.take 256).length (ctx.take 256) (ctx.take 256).length
      (pk.take P.CRYPTO_PUBLICKEYBYTES) = 0 <;>
  simp only [List.length_take] at hv <;>
  simp [mldsa87_verify_ref.main, fopen, fread, fclose, World.start, printf, called,
    hpk, hsig, hmsg, hctx, hlen, PASSED, FAILED, hv]

/-! ## Closed forms of the signing drivers -/

theorem Buf.take_self {n : Nat} (b : Buf n) : b.val.take n = b.val := by
  have h := b.property
  exact List.take_of_length_le (le_of_eq h)

theorem msg5_strlen :
    strlen (cstring "Cross-verification test message from pq-crystals Dilithium5") = 59 := by
  decide

theorem msg87_strlen :
    strlen (cstring "Cross-verification test message from pq-crystals ML-DSA-87") = 58 := by
  decide

theorem msg5_length :
    (cstring "Cross-verification test message from pq-crystals Dilithium5").length = 60 := by
  decide

theorem msg87_length :
    (cstring "Cross-verification test message from pq-crystals ML-DSA-87").length = 59 := by
  decide

theorem ctx_length : (cstring "ZOND").length = 5 := by decide

theorem ctx_strlen : strlen (cstring "ZOND") = 4 := by decide

theorem msg5_take :
    (cstring "Cross-verification test message from pq-crystals Dilithium5").take 59 =
      testMessage5 := by
  decide

theorem msg87_take :
    (cstring "Cross-verification test message from pq-crystals ML-DSA-87").take 58 =
      testMessage87 := by
  decide

theorem ctx_take : (cstring "ZOND").take 4 = testContext := by decide

theorem d5s_self_verify_failed (P : Params)
    (pk : Buf P.CRYPTO_PUBLICKEYBYTES) (sk : Buf P.CRYPTO_SECRETKEYBYTES)
    (signature : Bytes → Nat → Bytes → Buf P.CRYPTO_BYTES × Nat)
    (verify : Bytes → Nat → Bytes → Nat → Bytes → Int) (fs : FileSystem)
    (sig : Buf P.CRYPTO_BYTES) (siglen : Nat)
    (hs : signature testMessage5 59 sk.val = (sig, siglen))
    (hv : verify (sig.val.take siglen) siglen testMessage5 59 pk.val ≠ 0) :
    dilithium5_sign_ref.main P (pk, sk) signature verify fs =
      { status := .exited 1,
        world := { fs := fs, streams := [],
                   calls := [.verify (sig.val.take siglen) siglen testMessage5 59 pk.val],
                   stdout := [
                     { fmt := "=== pq-crystals Dilithium5 Signature Generation ===\n",
                       args := [] },
                     { fmt := "Self-verification failed!\n", args := [] }] } } := by
  simp only [dilithium5_sign_ref.main, msg5_strlen, msg5_take, hs, World.start, printf, called]
  rw [if_pos hv]
  simp

theorem d5s_status (P : Params)
    (pk : Buf P.CRYPTO_PUBLICKEYBYTES) (sk : Buf P.CRYPTO_SECRETKEYBYTES)
    (signature : Bytes → Nat → Bytes → Buf P.CRYPTO_BYTES × Nat)
    (verify : Bytes → Nat → Bytes → Nat → Bytes → Int) (fs : FileSystem)
    (sig : Buf P.CRYPTO_BYTES) (siglen : Nat)
    (hs : signature testMessage5 59 sk.val = (sig, siglen)) :
    (dilithium5_sign_ref.main P (pk, sk) signature verify fs).status =
      if verify (sig.val.take siglen) siglen testMessage5 59 pk.val ≠ 0 then .exited 1
      else if fs.writable "/tmp/ref_dilithium5_pk.bin" = true ∧
          fs.writable "/tmp/ref_dilithium5_sig.bin" = true ∧
          siglen ≤ P.CRYPTO_BYTES ∧
          fs.writable "/tmp/ref_dilithium5_msg.bin" = true then .exited 0
      else .undefined := by
  have hpk := pk.property
  have hsg := sig.property
  simp only [dilithium5_sign_ref.main, msg5_strlen, msg5_take, hs]
  by_cases hv : verify (sig.val.take siglen) siglen testMessage5 59 pk.val = 0 <;>
  by_cases h1 : fs.writable "/tmp/ref_dilithium5_pk.bin" = true <;>
  by_cases h2 : fs.writable "/tmp/ref_dilithium5_sig.bin" = true <;>
  by_cases h3 : siglen ≤ P.CRYPTO_BYTES <;>
  by_cases h4 : fs.writable "/tmp/ref_dilithium5_msg.bin" = true <;>
  simp [World.start, printf, called, fopen, fwrite, fclose, FileSystem.store,
    hv, h1, h2, h3, h4, hpk, hsg, msg5_length]

theorem d5s_success (P : Params)
    (pk : Buf P.CRYPTO_PUBLICKEYBYTES) (sk : Buf P.CRYPTO_SECRETKEYBYTES)
    (signature : Bytes → Nat → Bytes → Buf P.CRYPTO_BYTES × Nat)
    (verify : Bytes → Nat → Bytes → Nat → Bytes → Int) (fs : FileSystem)
    (sig : Buf P.CRYPTO_BYTES) (siglen : Nat)
    (hs : signature testMessage5 59 sk.val = (sig, siglen))
    (hv : verify (sig.val.take siglen) siglen testMessage5 59 pk.val = 0)
    (h1 : fs.writable "/tmp/ref_dilithium5_pk.bin" = true)
    (h2 : fs.writable "/tmp/ref_dilithium5_sig.bin" = true)
    (h3 : siglen ≤ P.CRYPTO_BYTES)
    (h4 : fs.writable "/tmp/ref_dilithium5_msg.bin" = true) :
    (dilithium5_sign_ref.main P (pk, sk) signature verify fs).status = .exited 0 ∧
    (dilithium5_sign_ref.main P (pk, sk) signature verify fs).world.streams = [] ∧
    (dilithium5_sign_ref.main P (pk, sk) signature verify fs).world.calls =
      [.verify (sig.val.take siglen) siglen testMessage5 59 pk.val] ∧
    (dilithium5_sign_ref.main P (pk, sk) signature verify fs).world.fs.writable =
      fs.writable ∧
    ∀ p : Path,
      (dilithium5_sign_ref.main P (pk, sk) signature verify fs).world.fs.content p =
        if p = "/tmp/ref_dilithium5_pk.bin" then some pk.val
        else if p = "/tmp/ref_dilithium5_sig.bin" then some (sig.val.take siglen)
        else if p = "/tmp/ref_dilithium5_msg.bin" then some testMessage5
        else fs.content p := by
  have hpk := pk.property
  have hsg := sig.property
  simp only [dilithium5_sign_ref.main, msg5_strlen, msg5_take, hs]
  simp [World.start, printf, called, fopen, fwrite, fclose, FileSystem.store,
    hv, h1, h2, h3, h4, hpk, hsg, msg5_length]
  intro p
  by_cases hp1 : p = "/tmp/ref_dilithium5_pk.bin"
  · subst hp1; simp [Buf.take_self]
  by_cases hp2 : p = "/tmp/ref_dilithium5_sig.bin"
  · subst hp2; simp
  by_cases hp3 : p = "/tmp/ref_dilithium5_msg.bin"
  · subst hp3; simp [msg5_take]
  simp [hp1, hp2, hp3]

theorem m87s_self_verify_failed (P : Params)
    (pk : Buf P.CRYPTO_PUBLICKEYBYTES) (sk : Buf P.CRYPTO_SECRETKEYBYTES)
    (signature : Bytes → Nat → Bytes → Nat → Bytes → Buf P.CRYPTO_BYTES × Nat)
    (verify : Bytes → Nat → Bytes → Nat → Bytes → Nat → Bytes → Int) (fs : FileSystem)
    (sig : Buf P.CRYPTO_BYTES) (siglen : Nat)
    (hs : signature testMessage87 58 testContext 4 sk.val = (sig, siglen))
    (hv : verify (sig.val.take siglen) siglen testMessage87 58 testContext 4 pk.val ≠ 0) :
    mldsa87_sign_ref.main P (pk, sk) signature verify fs =
      { status := .exited 1,
        world := { fs := fs, streams := [],
                   calls := [.verify_ctx (sig.val.take siglen) siglen testMessage87 58
                     testContext 4 pk.val],
                   stdout := [
                     { fmt := "=== pq-crystals ML-DSA-87 Signature Generation ===\n",
                       args := [] },
                     { fmt := "Self-verification failed!\n", args := [] }] } } := by
  simp only [mldsa87_sign_ref.main, msg87_strlen, msg87_take, ctx_strlen, ctx_take, hs,
    World.start, printf, called]
  rw [if_pos hv]
  simp

theorem m87s_status (P : Params)
    (pk : Buf P.CRYPTO_PUBLICKEYBYTES) (sk : Buf P.CRYPTO_SECRETKEYBYTES)
    (signature : Bytes → Nat → Bytes → Nat → Bytes → Buf P.CRYPTO_BYTES × Nat)
    (verify : Bytes → Nat → Bytes → Nat → Bytes → Nat → Bytes → Int) (fs : FileSystem)
    (sig : Buf P.CRYPTO_BYTES) (siglen : Nat)
    (hs : signature testMessage87 58 testContext 4 sk.val = (sig, siglen)) :
    (mldsa87_sign_ref.main P (pk, sk) signature verify fs).status =
      if verify (sig.val.take siglen) siglen testMessage87 58 testContext 4 pk.val ≠ 0
      then .exited 1
      else if fs.writable "/tmp/ref_mldsa87_pk.bin" = true ∧
          fs.writable "/tmp/ref_mldsa87_sig.bin" = true ∧
          siglen ≤ P.CRYPTO_BYTES ∧
          fs.writable "/tmp/ref_mldsa87_msg.bin" = true ∧
          fs.writable "/tmp/ref_mldsa87_ctx.bin" = true then .exited 0
      else .undefined := by
  have hpk := pk.property
  have hsg := sig.property
  simp only [mldsa87_sign_ref.main, msg87_strlen, msg87_take, ctx_strlen, ctx_take, hs]
  by_cases hv : verify (sig.val.take siglen) siglen testMessage87 58 testContext 4 pk.val = 0 <;>
  by_cases h1 : fs.writable "/tmp/ref_mldsa87_pk.bin" = true <;>
  by_cases h2 : fs.writable "/tmp/ref_mldsa87_sig.bin" = true <;>
  by_cases h3 : siglen ≤ P.CRYPTO_BYTES <;>
  by_cases h4 : fs.writable "/tmp/ref_mldsa87_msg.bin" = true <;>
  by_cases h5 : fs.writable "/tmp/ref_mldsa87_ctx.bin" = true <;>
  simp [World.start, printf, called, fopen, fwrite, fclose, FileSystem.store,
    hv, h1, h2, h3, h4, h5, hpk, hsg, msg87_length, ctx_length]

theorem m87s_success (P : Params)
    (pk : Buf P.CRYPTO_PUBLICKEYBYTES) (sk : Buf P.CRYPTO_SECRETKEYBYTES)
    (signature : Bytes → Nat → Bytes → Nat → Bytes → Buf P.CRYPTO_BYTES × Nat)
    (verify : Bytes → Nat → Bytes → Nat → Bytes → Nat → Bytes → Int) (fs : FileSystem)
    (sig : Buf P.CRYPTO_BYTES) (siglen : Nat)
    (hs : signature testMessage87 58 testContext 4 sk.val = (sig, siglen))
    (hv : verify (sig.val.take siglen) siglen testMessage87 58 testContext 4 pk.val = 0)
    (h1 : fs.writable "/tmp/ref_mldsa87_pk.bin" = true)
    (h2 : fs.writable "/tmp/ref_mldsa87_sig.bin" = true)
    (h3 : siglen ≤ P.CRYPTO_BYTES)
    (h4 : fs.writable "/tmp/ref_mldsa87_msg.bin" = true)
    (h5 : fs.writable "/tmp/ref_mldsa87_ctx.bin" = true) :
    (mldsa87_sign_ref.main P (pk, sk) signature verify fs).status = .exited 0 ∧
    (mldsa87_sign_ref.main P (pk, sk) signature verify fs).world.streams = [] ∧
    (mldsa87_sign_ref.main P (pk, sk) signature verify fs).world.calls =
      [.verify_ctx (sig.val.take siglen) siglen testMessage87 58 testContext 4 pk.val] ∧
    (mldsa87_sign_ref.main P (pk, sk) signature verify fs).world.fs.writable =
      fs.writable ∧
    ∀ p : Path,
      (mldsa87_sign_ref.main P (pk, sk) signature verify fs).world.fs.content p =
        if p = "/tmp/ref_mldsa87_pk.bin" then some pk.val
        else if p = "/tmp/ref_mldsa87_sig.bin" then some (sig.val.take siglen)
        else if p = "/tmp/ref_mldsa87_msg.bin" then some testMessage87
        else if p = "/tmp/ref_mldsa87_ctx.bin" then some testContext
        else fs.content p := by
  have hpk := pk.property
  have hsg := sig.property
  simp only [mldsa87_sign_ref.main, msg87_strlen, msg87_take, ctx_strlen, ctx_take, hs]
  simp [World.start, printf, called, fopen, fwrite, fclose, FileSystem.store,
    hv, h1, h2, h3, h4, h5, hpk, hsg, msg87_length, ctx_length]
  intro p
  by_cases hp1 : p = "/tmp/ref_mldsa87_pk.bin"
  · subst hp1; simp [Buf.take_self]
  by_cases hp2 : p = "/tmp/ref_mldsa87_sig.bin"
  · subst hp2; simp
  by_cases hp3 : p = "/tmp/ref_mldsa87_msg.bin"
  · subst hp3; simp [msg87_take]
  by_cases hp4 : p = "/tmp/ref_mldsa87_ctx.bin"
  · subst hp4; simp [ctx_take]
  simp [hp1, hp2, hp3, hp4]

theorem testMessage5_length : testMessage5.length = 59 := by decide

theorem testMessage87_length : testMessage87.length = 58 := by decide

theorem testMessage5_take : testMessage5.take 256 = testMessage5 := by decide

theorem testMessage87_take : testMessage87.take 256 = testMessage87 := by decide

theorem testContext_take : testContext.take 256 = testContext := by decide

theorem Buf.take_take_self {n : Nat} (b : Buf n) (k : Nat) (h : k ≤ n) :
    (b.val.take k).take n = b.val.take k := by
  apply List.take_of_length_le
  rw [List.length_take]
  omega

theorem Buf.length_take_le {n : Nat} (b : Buf n) (k : Nat) (h : k ≤ n) :
    (b.val.take k).length = k := by
  rw [List.length_take, b.property]
  omega

theorem d5v_accepts (P : Params) (verify : Bytes → Nat → Bytes → Nat → Bytes → Int)
    (fs : FileSystem) (pk sig msg : Bytes)
    (hpk : fs.content "/tmp/qrypto_dilithium5_pk.bin" = some pk)
    (hlen : P.CRYPTO_PUBLICKEYBYTES ≤ pk.length)
    (hsig : fs.content "/tmp/qrypto_dilithium5_sig.bin" = some sig)
    (hmsg : fs.content "/tmp/qrypto_dilithium5_msg.bin" = some msg)
    (hv : verify (sig.take P.CRYPTO_BYTES) (sig.take P.CRYPTO_BYTES).length
      (msg.take 256) (msg.take 256).length (pk.take P.CRYPTO_PUBLICKEYBYTES) = 0) :
    (dilithium5_verify_ref.main P verify fs).status = .exited 0 ∧
    PASSED ∈ (dilithium5_verify_ref.main P verify fs).world.stdout ∧
    FAILED ∉ (dilithium5_verify_ref.main P verify fs).world.stdout := by
  rw [d5v_loaded P verify fs pk sig msg hpk hlen hsig hmsg, hv]
  simp [PASSED, FAILED]

theorem m87v_accepts (P : Params)
    (verify : Bytes → Nat → Bytes → Nat → Bytes → Nat → Bytes → Int)
    (fs : FileSystem) (pk sig msg ctx : Bytes)
    (hpk : fs.content "/tmp/qrypto_mldsa87_pk.bin" = some pk)
    (hlen : P.CRYPTO_PUBLICKEYBYTES ≤ pk.length)
    (hsig : fs.content "/tmp/qrypto_mldsa87_sig.bin" = some sig)
    (hmsg : fs.content "/tmp/qrypto_mldsa87_msg.bin" = some msg)
    (hctx : fs.content "/tmp/qrypto_mldsa87_ctx.bin" = some ctx)
    (hv : verify (sig.take P.CRYPTO_BYTES) (sig.take P.CRYPTO_BYTES).length
      (msg.take 256) (msg.take 256).length (ctx.take 256) (ctx.take 256).length
      (pk.take P.CRYPTO_PUBLICKEYBYTES) = 0) :
    (mldsa87_verify_ref.main P verify fs).status = .exited 0 ∧
    PASSED ∈ (mldsa87_verify_ref.main P verify fs).world.stdout ∧
    FAILED ∉ (mldsa87_verify_ref.main P verify fs).world.stdout := by
  rw [m87v_loaded P verify fs pk sig msg ctx hpk hlen hsig hmsg hctx, hv]
  simp [PASSED, FAILED]

theorem d5s_unwritable_pk (P : Params)
    (pk : Buf P.CRYPTO_PUBLICKEYBYTES) (sk : Buf P.CRYPTO_SECRETKEYBYTES)
    (signature : Bytes → Nat → Bytes → Buf P.CRYPTO_BYTES × Nat)
    (verify : Bytes → Nat → Bytes → Nat → Bytes → Int) (fs : FileSystem)
    (sig : Buf P.CRYPTO_BYTES) (siglen : Nat)
    (hs : signature testMessage5 59 sk.val = (sig, siglen))
    (hv : verify (sig.val.take siglen) siglen testMessage5 59 pk.val = 0)
    (h1 : fs.writable "/tmp/ref_dilithium5_pk.bin" = false) :
    dilithium5_sign_ref.main P (pk, sk) signature verify fs =
      { status := .undefined,
        world := { fs := fs, streams := [],
                   calls := [.verify (sig.val.take siglen) siglen testMessage5 59 pk.val],
                   stdout := [
                     { fmt := "=== pq-crystals Dilithium5 Signature Generation ===\n",
                       args := [] },
                     { fmt := "PK size:  %d bytes\n", args := [.num P.CRYPTO_PUBLICKEYBYTES] },
                     { fmt := "SK size:  %d bytes\n", args := [.num P.CRYPTO_SECRETKEYBYTES] },
                     { fmt := "Sig size: %zu bytes\n", args := [.num siglen] },
                     { fmt := "Message:  \"%s\"\n", args := [.str testMessage5] },
                     { fmt := "Self-verify: PASSED\n", args := [] }] } } := by
  simp only [dilithium5_sign_ref.main, msg5_strlen, msg5_take, hs]
  simp [World.start, printf, called, fopen, hv, h1]

theorem m87s_unwritable_pk (P : Params)
    (pk : Buf P.CRYPTO_PUBLICKEYBYTES) (sk : Buf P.CRYPTO_SECRETKEYBYTES)
    (signature : Bytes → Nat → Bytes → Nat → Bytes → Buf P.CRYPTO_BYTES × Nat)
    (verify : Bytes → Nat → Bytes → Nat → Bytes → Nat → Bytes → Int) (fs : FileSystem)
    (sig : Buf P.CRYPTO_BYTES) (siglen : Nat)
    (hs : signature testMessage87 58 testContext 4 sk.val = (sig, siglen))
    (hv : verify (sig.val.take siglen) siglen testMessage87 58 testContext 4 pk.val = 0)
    (h1 : fs.writable "/tmp/ref_mldsa87_pk.bin" = false) :
    mldsa87_sign_ref.main P (pk, sk) signature verify fs =
      { status := .undefined,
        world := { fs := fs, streams := [],
                   calls := [.verify_ctx (sig.val.take siglen) siglen testMessage87 58
                     testContext 4 pk.val],
                   stdout := [
                     { fmt := "=== pq-crystals ML-DSA-87 Signature Generation ===\n",
                       args := [] },
                     { fmt := "PK size:  %d bytes\n", args := [.num P.CRYPTO_PUBLICKEYBYTES] },
                     { fmt := "SK size:  %d bytes\n", args := [.num P.CRYPTO_SECRETKEYBYTES] },
                     { fmt := "Sig size: %zu bytes\n", args := [.num siglen] },
                     { fmt := "Context:  \"%s\"\n", args := [.str testContext] },
                     { fmt := "Message:  \"%s\"\n", args := [.str testMessage87] },
                     { fmt := "Self-verify: PASSED\n", args := [] }] } } := by
  simp only [mldsa87_sign_ref.main, msg87_strlen, msg87_take, ctx_strlen, ctx_take, hs]
  simp [World.start, printf, called, fopen, hv, h1]

theorem take_eq_le_iff {a b : Bytes} {n : Nat} (h : a.take n = b.take n) :
    n ≤ a.length ↔ n ≤ b.length := by
  have hl := congrArg List.length h
  rw [List.length_take, List.length_take] at hl
  omega

theorem d5v_agree (P : Params) (verify : Bytes → Nat → Bytes → Nat → Bytes → Int)
    (fs1 fs2 : FileSystem)
    (hpk : (fs1.content "/tmp/qrypto_dilithium5_pk.bin").map (List.take P.CRYPTO_PUBLICKEYBYTES) =
      (fs2.content "/tmp/qrypto_dilithium5_pk.bin").map (List.take P.CRYPTO_PUBLICKEYBYTES))
    (hsig : (fs1.content "/tmp/qrypto_dilithium5_sig.bin").map (List.take P.CRYPTO_BYTES) =
      (fs2.content "/tmp/qrypto_dilithium5_sig.bin").map (List.take P.CRYPTO_BYTES))
    (hmsg : (fs1.content "/tmp/qrypto_dilithium5_msg.bin").map (List.take 256) =
      (fs2.content "/tmp/qrypto_dilithium5_msg.bin").map (List.take 256)) :
    (dilithium5_verify_ref.main P verify fs1).status =
      (dilithium5_verify_ref.main P verify fs2).status ∧
    (dilithium5_verify_ref.main P verify fs1).world.calls =
      (dilithium5_verify_ref.main P verify fs2).world.calls ∧
    (dilithium5_verify_ref.main P verify fs1).world.stdout =
      (dilithium5_verify_ref.main P verify fs2).world.stdout := by
  cases h1 : fs1.content "/tmp/qrypto_dilithium5_pk.bin" with
  | none =>
    cases h2 : fs2.content "/tmp/qrypto_dilithium5_pk.bin" with
    | none => rw [d5v_no_pk P verify fs1 h1, d5v_no_pk P verify fs2 h2]; simp
    | some b => simp [h1, h2] at hpk
  | some a =>
    cases h2 : fs2.content "/tmp/qrypto_dilithium5_pk.bin" with
    | none => simp [h1, h2] at hpk
    | some b =>
      have hab : a.take P.CRYPTO_PUBLICKEYBYTES = b.take P.CRYPTO_PUBLICKEYBYTES := by
        simpa [h1, h2] using hpk
      by_cases hla : P.CRYPTO_PUBLICKEYBYTES ≤ a.length
      · have hlb : P.CRYPTO_PUBLICKEYBYTES ≤ b.length := (take_eq_le_iff hab).mp hla
        cases h3 : fs1.content "/tmp/qrypto_dilithium5_sig.bin" with
        | none =>
          cases h4 : fs2.content "/tmp/qrypto_dilithium5_sig.bin" with
          | none =>
            rw [d5v_no_sig P verify fs1 a h1 hla h3, d5v_no_sig P verify fs2 b h2 hlb h4]
            simp
          | some d => simp [h3, h4] at hsig
        | some c =>
          cases h4 : fs2.content "/tmp/qrypto_dilithium5_sig.bin" with
          | none => simp [h3, h4] at hsig
          | some d =>
            have hcd : c.take P.CRYPTO_BYTES = d.take P.CRYPTO_BYTES := by
              simpa [h3, h4] using hsig
            cases h5 : fs1.content "/tmp/qrypto_dilithium5_msg.bin" with
            | none =>
              cases h6 : fs2.content "/tmp/qrypto_dilithium5_msg.bin" with
              | none =>
                rw [d5v_no_msg P verify fs1 a c h1 hla h3 h5,
                  d5v_no_msg P verify fs2 b d h2 hlb h4 h6]
                simp
              | some f => simp [h5, h6] at hmsg
            | some e =>
              cases h6 : fs2.content "/tmp/qrypto_dilithium5_msg.bin" with
              | none => simp [h5, h6] at hmsg
              | some f =>
                have hef : e.take 256 = f.take 256 := by simpa [h5, h6] using hmsg
                rw [d5v_loaded P verify fs1 a c e h1 hla h3 h5,
                  d5v_loaded P verify fs2 b d f h2 hlb h4 h6, hab, hcd, hef]
                simp
      · have hlb : ¬ P.CRYPTO_PUBLICKEYBYTES ≤ b.length := fun h =>
          hla ((take_eq_le_iff hab).mpr h)
        rw [d5v_short_pk P verify fs1 a h1 (by omega),
          d5v_short_pk P verify fs2 b h2 (by omega)]
        simp

theorem m87v_agree (P : Params)
    (verify : Bytes → Nat → Bytes → Nat → Bytes → Nat → Bytes → Int)
    (fs1 fs2 : FileSystem)
    (hpk : (fs1.content "/tmp/qrypto_mldsa87_pk.bin").map (List.take P.CRYPTO_PUBLICKEYBYTES) =
      (fs2.content "/tmp/qrypto_mldsa87_pk.bin").map (List.take P.CRYPTO_PUBLICKEYBYTES))
    (hsig : (fs1.content "/tmp/qrypto_mldsa87_sig.bin").map (List.take P.CRYPTO_BYTES) =
      (fs2.content "/tmp/qrypto_mldsa87_sig.bin").map (List.take P.CRYPTO_BYTES))
    (hmsg : (fs1.content "/tmp/qrypto_mldsa87_msg.bin").map (List.take 256) =
      (fs2.content "/tmp/qrypto_mldsa87_msg.bin").map (List.take 256))
    (hctx : (fs1.content "/tmp/qrypto_mldsa87_ctx.bin").map (List.take 256) =
      (fs2.content "/tmp/qrypto_mldsa87_ctx.bin").map (List.take 256)) :
    (mldsa87_verify_ref.main P verify fs1).status =
      (mldsa87_verify_ref.main P verify fs2).status ∧
    (mldsa87_verify_ref.main P verify fs1).world.calls =
      (mldsa87_verify_ref.main P verify fs2).world.calls ∧
    (mldsa87_verify_ref.main P verify fs1).world.stdout =
      (mldsa87_verify_ref.main P verify fs2).world.stdout := by
  cases h1 : fs1.content "/tmp/qrypto_mldsa87_pk.bin" with
  | none =>
    cases h2 : fs2.content "/tmp/qrypto_mldsa87_pk.bin" with
    | none => rw [m87v_no_pk P verify fs1 h1, m87v_no_pk P verify fs2 h2]; simp
    | some b => simp [h1, h2] at hpk
  | some a =>
    cases h2 : fs2.content "/tmp/qrypto_mldsa87_pk.bin" with
    | none => simp [h1, h2] at hpk
    | some b =>
      have hab : a.take P.CRYPTO_PUBLICKEYBYTES = b.take P.CRYPTO_PUBLICKEYBYTES := by
        simpa [h1, h2] using hpk
      by_cases hla : P.CRYPTO_PUBLICKEYBYTES ≤ a.length
      · have hlb : P.CRYPTO_PUBLICKEYBYTES ≤ b.length := (take_eq_le_iff hab).mp hla
        cases h3 : fs1.content "/tmp/qrypto_mldsa87_sig.bin" with
        | none =>
          cases h4 : fs2.content "/tmp/qrypto_mldsa87_sig.bin" with
          | none =>
            rw [m87v_no_sig P verify fs1 a h1 hla h3, m87v_no_sig P verify fs2 b h2 hlb h4]
            simp
          | some d => simp [h3, h4] at hsig
        | some c =>
          cases h4 : fs2.content "/tmp/qrypto_mldsa87_sig.bin" with
          | none => simp [h3, h4] at hsig
          | some d =>
            have hcd : c.take P.CRYPTO_BYTES = d.take P.CRYPTO_BYTES := by
              simpa [h3, h4] using hsig
            cases h5 : fs1.content "/tmp/qrypto_mldsa87_msg.bin" with
            | none =>
              cases h6 : fs2.content "/tmp/qrypto_mldsa87_msg.bin" with
              | none =>
                rw [m87v_no_msg P verify fs1 a c h1 hla h3 h5,
                  m87v_no_msg P verify fs2 b d h2 hlb h4 h6]
                simp
              | some f => simp [h5, h6] at hmsg
            | some e =>
              cases h6 : fs2.content "/tmp/qrypto_mldsa87_msg.bin" with
              | none => simp [h5, h6] at hmsg
              | some f =>
                have hef : e.take 256 = f.take 256 := by simpa [h5, h6] using hmsg
                cases h7 : fs1.content "/tmp/qrypto_mldsa87_ctx.bin" with
                | none =>
                  cases h8 : fs2.content "/tmp/qrypto_mldsa87_ctx.bin" with
                  | none =>
                    rw [m87v_no_ctx P verify fs1 a c e h1 hla h3 h5 h7,
                      m87v_no_ctx P verify fs2 b d f h2 hlb h4 h6 h8]
                    simp
                  | some k => simp [h7, h8] at hctx
                | some g =>
                  cases h8 : fs2.content "/tmp/qrypto_mldsa87_ctx.bin" with
                  | none => simp [h7, h8] at hctx
                  | some k =>
                    have hgk : g.take 256 = k.take 256 := by simpa [h7, h8] using hctx
                    rw [m87v_loaded P verify fs1 a c e g h1 hla h3 h5 h7,
                      m87v_loaded P verify fs2 b d f k h2 hlb h4 h6 h8, hab, hcd, hef, hgk]
                    simp
      · have hlb : ¬ P.CRYPTO_PUBLICKEYBYTES ≤ b.length := fun h =>
          hla ((take_eq_le_iff hab).mpr h)
        rw [m87v_short_pk P verify fs1 a h1 (by omega),
          m87v_short_pk P verify fs2 b h2 (by omega)]
        simp

/-! ## Claims -/

/-- C1: in both cross-verifiers, when every required artifact can be opened and the
public key file holds at least `CRYPTO_PUBLICKEYBYTES` bytes, `crypto_sign_verify` is
called once on the loaded values, the exit code is 0 exactly when that call returns 0
and 1 otherwise, and the verdict line printed is `PASSED` exactly when the exit code
is 0 and `FAILED` exactly when it is 1. -/
theorem C1_exit_code_and_verdict_follow_verify :
    (∀ (P : Params) (verify : Bytes → Nat → Bytes → Nat → Bytes → Int) (fs : FileSystem)
        (pk sig msg : Bytes) (r : Run) (ret : Int),
        fs.content "/tmp/qrypto_dilithium5_pk.bin" = some pk →
        fs.content "/tmp/qrypto_dilithium5_sig.bin" = some sig →
        fs.content "/tmp/qrypto_dilithium5_msg.bin" = some msg →
        P.CRYPTO_PUBLICKEYBYTES ≤ pk.length →
        dilithium5_verify_ref.main P verify fs = r →
        verify (sig.take P.CRYPTO_BYTES) (sig.take P.CRYPTO_BYTES).length
          (msg.take 256) (msg.take 256).length (pk.take P.CRYPTO_PUBLICKEYBYTES) = ret →
        r.world.calls = [.verify (sig.take P.CRYPTO_BYTES) (sig.take P.CRYPTO_BYTES).length
          (msg.take 256) (msg.take 256).length (pk.take P.CRYPTO_PUBLICKEYBYTES)] ∧
        (r.status = .exited 0 ↔ ret = 0) ∧
        (r.status = .exited 1 ↔ ret ≠ 0) ∧
        (PASSED ∈ r.world.stdout ↔ r.status = .exited 0) ∧
        (FAILED ∈ r.world.stdout ↔ r.status = .exited 1)) ∧
    (∀ (P : Params) (verify : Bytes → Nat → Bytes → Nat → Bytes → Nat → Bytes → Int)
        (fs : FileSystem) (pk sig msg ctx : Bytes) (r : Run) (ret : Int),
        fs.content "/tmp/qrypto_mldsa87_pk.bin" = some pk →
        fs.content "/tmp/qrypto_mldsa87_sig.bin" = some sig →
        fs.content "/tmp/qrypto_mldsa87_msg.bin" = some msg →
        fs.content "/tmp/qrypto_mldsa87_ctx.bin" = some ctx →
        P.CRYPTO_PUBLICKEYBYTES ≤ pk.length →
        mldsa87_verify_ref.main P verify fs = r →
        verify (sig.take P.CRYPTO_BYTES) (sig.take P.CRYPTO_BYTES).length
          (msg.take 256) (msg.take 256).length (ctx.take 256) (ctx.take 256).length
          (pk.take P.CRYPTO_PUBLICKEYBYTES) = ret →
        r.world.calls = [.verify_ctx (sig.take P.CRYPTO_BYTES)
          (sig.take P.CRYPTO_BYTES).length (msg.take 256) (msg.take 256).length
          (ctx.take 256) (ctx.take 256).length (pk.take P.CRYPTO_PUBLICKEYBYTES)] ∧
        (r.status = .exited 0 ↔ ret = 0) ∧
        (r.status = .exited 1 ↔ ret ≠ 0) ∧
        (PASSED ∈ r.world.stdout ↔ r.status = .exited 0) ∧
        (FAILED ∈ r.world.stdout ↔ r.status = .exited 1)) := by
  constructor
  · intro P verify fs pk sig msg r ret hpk hsig hmsg hlen hr hret
    rw [d5v_loaded P verify fs pk sig msg hpk hlen hsig hmsg] at hr
    subst hr
    rw [hret]
    by_cases h0 : ret = 0 <;> simp [h0, PASSED, FAILED]
  · intro P verify fs pk sig msg ctx r ret hpk hsig hmsg hctx hlen hr hret
    rw [m87v_loaded P verify fs pk sig msg ctx hpk hlen hsig hmsg hctx] at hr
    subst hr
    rw [hret]
    by_cases h0 : ret = 0 <;> simp [h0, PASSED, FAILED]

/-- Witness of C1: both verifiers on files that load, with a routine accepting all. -/
theorem C1_witness :
    ((dilithium5_verify_ref.main tinyParams acceptAll
        (filesOf [("/tmp/qrypto_dilithium5_pk.bin", [1, 2]),
          ("/tmp/qrypto_dilithium5_sig.bin", [3, 4, 5, 6]),
          ("/tmp/qrypto_dilithium5_msg.bin", [7])])).status = .exited 0 ↔ (0 : Int) = 0) ∧
    ((mldsa87_verify_ref.main tinyParams acceptAllCtx
        (filesOf [("/tmp/qrypto_mldsa87_pk.bin", [1, 2]),
          ("/tmp/qrypto_mldsa87_sig.bin", [3, 4, 5, 6]),
          ("/tmp/qrypto_mldsa87_msg.bin", [7]),
          ("/tmp/qrypto_mldsa87_ctx.bin", [8])])).status = .exited 0 ↔ (0 : Int) = 0) :=
  ⟨(C1_exit_code_and_verdict_follow_verify.1 tinyParams acceptAll _ [1, 2] [3, 4, 5, 6] [7]
      _ 0 (by decide) (by decide) (by decide) (by decide) rfl rfl).2.1,
   (C1_exit_code_and_verdict_follow_verify.2 tinyParams acceptAllCtx _ [1, 2] [3, 4, 5, 6]
      [7] [8] _ 0 (by decide) (by decide) (by decide) (by decide) (by decide) rfl rfl).2.1⟩

/-- C2, as stated, fails: with the Dilithium5 signature file absent and a public key
file that exists but is empty, the driver prints `Failed to read pk`, which is none of
the `Cannot open ...` diagnostics. -/
theorem C2_counterexample_short_pk_before_missing_sig :
    (filesOf [("/tmp/qrypto_dilithium5_pk.bin", [])]).content
        "/tmp/qrypto_dilithium5_sig.bin" = none ∧
    (dilithium5_verify_ref.main dilithium5Params acceptAll
        (filesOf [("/tmp/qrypto_dilithium5_pk.bin", [])])).world.stdout = [failedToReadPk] ∧
    failedToReadPk ∉ cannotOpenDiagnostics := by
  refine ⟨by decide, ?_, by decide⟩
  rw [d5v_short_pk dilithium5Params acceptAll _ [] (by decide) (by decide)]
  rfl

/-- C2, amended: in both cross-verifiers, when a required artifact file is absent the
driver exits with code 1, never calls `crypto_sign_verify`, and prints exactly one
diagnostic and no verdict line; the diagnostic is `Failed to read pk` when the public
key file exists with fewer than `CRYPTO_PUBLICKEYBYTES` bytes, and one of the
`Cannot open ...` lines otherwise. -/
theorem C2_missing_artifact_aborts_before_verify :
    (∀ (P : Params) (verify : Bytes → Nat → Bytes → Nat → Bytes → Int) (fs : FileSystem)
        (r : Run),
        (fs.content "/tmp/qrypto_dilithium5_pk.bin" = none ∨
         fs.content "/tmp/qrypto_dilithium5_sig.bin" = none ∨
         fs.content "/tmp/qrypto_dilithium5_msg.bin" = none) →
        dilithium5_verify_ref.main P verify fs = r →
        r.status = .exited 1 ∧ r.world.calls = [] ∧
        PASSED ∉ r.world.stdout ∧ FAILED ∉ r.world.stdout ∧
        ∃ d, r.world.stdout = [d] ∧
          (d = failedToReadPk ∨ d ∈ cannotOpenDiagnostics) ∧
          (d = failedToReadPk ↔
            ∃ pk, fs.content "/tmp/qrypto_dilithium5_pk.bin" = some pk ∧
              pk.length < P.CRYPTO_PUBLICKEYBYTES)) ∧
    (∀ (P : Params) (verify : Bytes → Nat → Bytes → Nat → Bytes → Nat → Bytes → Int)
        (fs : FileSystem) (r : Run),
        (fs.content "/tmp/qrypto_mldsa87_pk.bin" = none ∨
         fs.content "/tmp/qrypto_mldsa87_sig.bin" = none ∨
         fs.content "/tmp/qrypto_mldsa87_msg.bin" = none ∨
         fs.content "/tmp/qrypto_mldsa87_ctx.bin" = none) →
        mldsa87_verify_ref.main P verify fs = r →
        r.status = .exited 1 ∧ r.world.calls = [] ∧
        PASSED ∉ r.world.stdout ∧ FAILED ∉ r.world.stdout ∧
        ∃ d, r.world.stdout = [d] ∧
          (d = failedToReadPk ∨ d ∈ cannotOpenDiagnostics) ∧
          (d = failedToReadPk ↔
            ∃ pk, fs.content "/tmp/qrypto_mldsa87_pk.bin" = some pk ∧
              pk.length < P.CRYPTO_PUBLICKEYBYTES)) := by
  constructor
  · intro P verify fs r habs hr
    cases hpk : fs.content "/tmp/qrypto_dilithium5_pk.bin" with
    | none =>
      rw [d5v_no_pk P verify fs hpk] at hr
      subst hr
      simp [PASSED, FAILED, failedToReadPk, cannotOpenDiagnostics]
    | some pk =>
      by_cases hlen : pk.length < P.CRYPTO_PUBLICKEYBYTES
      · rw [d5v_short_pk P verify fs pk hpk hlen] at hr
        subst hr
        simp [PASSED, FAILED, failedToReadPk, cannotOpenDiagnostics, hlen]
      · have hle : P.CRYPTO_PUBLICKEYBYTES ≤ pk.length := by omega
        cases hsig : fs.content "/tmp/qrypto_dilithium5_sig.bin" with
        | none =>
          rw [d5v_no_sig P verify fs pk hpk hle hsig] at hr
          subst hr
          simp [PASSED, FAILED, failedToReadPk, cannotOpenDiagnostics, hlen]
        | some sig =>
          cases hmsg : fs.content "/tmp/qrypto_dilithium5_msg.bin" with
          | none =>
            rw [d5v_no_msg P verify fs pk sig hpk hle hsig hmsg] at hr
            subst hr
            simp [PASSED, FAILED, failedToReadPk, cannotOpenDiagnostics, hlen]
          | some msg => simp [hpk, hsig, hmsg] at habs
  · intro P verify fs r habs hr
    cases hpk : fs.content "/tmp/qrypto_mldsa87_pk.bin" with
    | none =>
      rw [m87v_no_pk P verify fs hpk] at hr
      subst hr
      simp [PASSED, FAILED, failedToReadPk, cannotOpenDiagnostics]
    | some pk =>
      by_cases hlen : pk.length < P.CRYPTO_PUBLICKEYBYTES
      · rw [m87v_short_pk P verify fs pk hpk hlen] at hr
        subst hr
        simp [PASSED, FAILED, failedToReadPk, cannotOpenDiagnostics, hlen]
      · have hle : P.CRYPTO_PUBLICKEYBYTES ≤ pk.length := by omega
        cases hsig : fs.content "/tmp/qrypto_mldsa87_sig.bin" with
        | none =>
          rw [m87v_no_sig P verify fs pk hpk hle hsig] at hr
          subst hr
          simp [PASSED, FAILED, failedToReadPk, cannotOpenDiagnostics, hlen]
        | some sig =>
          cases hmsg : fs.content "/tmp/qrypto_mldsa87_msg.bin" with
          | none =>
            rw [m87v_no_msg P verify fs pk sig hpk hle hsig hmsg] at hr
            subst hr
            simp [PASSED, FAILED, failedToReadPk, cannotOpenDiagnostics, hlen]
          | some msg =>
            cases hctx : fs.content "/tmp/qrypto_mldsa87_ctx.bin" with
            | none =>
              rw [m87v_no_ctx P verify fs pk sig msg hpk hle hsig hmsg hctx] at hr
              subst hr
              simp [PASSED, FAILED, failedToReadPk, cannotOpenDiagnostics, hlen]
            | some ctx => simp [hpk, hsig, hmsg, hctx] at habs

/-- Witness of C2 (amended): no artifact exists at all. -/
theorem C2_witness :
    (dilithium5_verify_ref.main dilithium5Params acceptAll (filesOf [])).status = .exited 1 ∧
    (mldsa87_verify_ref.main mldsa87Params acceptAllCtx (filesOf [])).world.calls = [] :=
  ⟨(C2_missing_artifact_aborts_before_verify.1 dilithium5Params acceptAll (filesOf []) _
      (Or.inl (by decide)) rfl).1,
   (C2_missing_artifact_aborts_before_verify.2 mldsa87Params acceptAllCtx (filesOf []) _
      (Or.inl (by decide)) rfl).2.1⟩

/-- C3: in both signing drivers, whatever key generation and signing produce, when the
self-verification call returns nonzero the driver exits with code 1 and the file system
is exactly as before the run; no stream was opened. -/
theorem C3_failed_self_check_writes_nothing :
    (∀ (P : Params) (pk : Buf P.CRYPTO_PUBLICKEYBYTES) (sk : Buf P.CRYPTO_SECRETKEYBYTES)
        (signature : Bytes → Nat → Bytes → Buf P.CRYPTO_BYTES × Nat)
        (verify : Bytes → Nat → Bytes → Nat → Bytes → Int) (fs : FileSystem)
        (sig : Buf P.CRYPTO_BYTES) (siglen : Nat) (r : Run),
        signature testMessage5 59 sk.val = (sig, siglen) →
        verify (sig.val.take siglen) siglen testMessage5 59 pk.val ≠ 0 →
        dilithium5_sign_ref.main P (pk, sk) signature verify fs = r →
        r.status = .exited 1 ∧ r.world.fs = fs ∧ r.world.streams = [] ∧
        r.world.calls = [.verify (sig.val.take siglen) siglen testMessage5 59 pk.val]) ∧
    (∀ (P : Params) (pk : Buf P.CRYPTO_PUBLICKEYBYTES) (sk : Buf P.CRYPTO_SECRETKEYBYTES)
        (signature : Bytes → Nat → Bytes → Nat → Bytes → Buf P.CRYPTO_BYTES × Nat)
        (verify : Bytes → Nat → Bytes → Nat → Bytes → Nat → Bytes → Int) (fs : FileSystem)
        (sig : Buf P.CRYPTO_BYTES) (siglen : Nat) (r : Run),
        signature testMessage87 58 testContext 4 sk.val = (sig, siglen) →
        verify (sig.val.take siglen) siglen testMessage87 58 testContext 4 pk.val ≠ 0 →
        mldsa87_sign_ref.main P (pk, sk) signature verify fs = r →
        r.status = .exited 1 ∧ r.world.fs = fs ∧ r.world.streams = [] ∧
        r.world.calls =
          [.verify_ctx (sig.val.take siglen) siglen testMessage87 58 testContext 4 pk.val]) := by
  constructor
  · intro P pk sk signature verify fs sig siglen r hs hv hr
    rw [d5s_self_verify_failed P pk sk signature verify fs sig siglen hs hv] at hr
    subst hr
    simp
  · intro P pk sk signature verify fs sig siglen r hs hv hr
    rw [m87s_self_verify_failed P pk sk signature verify fs sig siglen hs hv] at hr
    subst hr
    simp

/-- Witness of C3: both signing drivers with a verification routine that rejects. -/
theorem C3_witness :
    (dilithium5_sign_ref.main tinyParams (tinyPk, tinySk) tinySign rejectAll
        (filesOf [])).status = .exited 1 ∧
    (mldsa87_sign_ref.main tinyParams (tinyPk, tinySk) tinySignCtx rejectAllCtx
        (filesOf [])).world.fs = filesOf [] :=
  ⟨(C3_failed_self_check_writes_nothing.1 tinyParams tinyPk tinySk tinySign rejectAll
      (filesOf []) tinySig 3 _ rfl (by decide) rfl).1,
   (C3_failed_self_check_writes_nothing.2 tinyParams tinyPk tinySk tinySignCtx rejectAllCtx
      (filesOf []) tinySig 3 _ rfl (by decide) rfl).2.1⟩

/-- C4: in both signing drivers, when self-verification returns 0, the artifact paths
are writable and `siglen` is at most `CRYPTO_BYTES`, the driver exits with code 0 and
afterwards the public key file holds the `CRYPTO_PUBLICKEYBYTES` bytes of `pk`, the
signature file holds the first `siglen` bytes of the signature buffer (so its length is
`siglen`), the message file holds the test string without its terminating zero, the
ML-DSA-87 driver also writes the four bytes `ZOND` to the context file while the
Dilithium5 driver leaves its context path alone, every other path is unchanged, and
the file system written does not depend on the secret key beyond the signature: a run
with another secret key and another signing routine that leave the same signature
buffer and `siglen` writes the same file system. -/
theorem C4_artifacts_written_on_success :
    (∀ (P : Params) (pk : Buf P.CRYPTO_PUBLICKEYBYTES) (sk : Buf P.CRYPTO_SECRETKEYBYTES)
        (signature : Bytes → Nat → Bytes → Buf P.CRYPTO_BYTES × Nat)
        (verify : Bytes → Nat → Bytes → Nat → Bytes → Int) (fs : FileSystem)
        (sig : Buf P.CRYPTO_BYTES) (siglen : Nat) (r : Run),
        signature testMessage5 59 sk.val = (sig, siglen) →
        verify (sig.val.take siglen) siglen testMessage5 59 pk.val = 0 →
        fs.writable "/tmp/ref_dilithium5_pk.bin" = true →
        fs.writable "/tmp/ref_dilithium5_sig.bin" = true →
        fs.writable "/tmp/ref_dilithium5_msg.bin" = true →
        siglen ≤ P.CRYPTO_BYTES →
        dilithium5_sign_ref.main P (pk, sk) signature verify fs = r →
        r.status = .exited 0 ∧
        r.world.fs.content "/tmp/ref_dilithium5_pk.bin" = some pk.val ∧
        pk.val.length = P.CRYPTO_PUBLICKEYBYTES ∧
        r.world.fs.content "/tmp/ref_dilithium5_sig.bin" = some (sig.val.take siglen) ∧
        (sig.val.take siglen).length = siglen ∧
        r.world.fs.content "/tmp/ref_dilithium5_msg.bin" = some testMessage5 ∧
        r.world.fs.content "/tmp/ref_dilithium5_ctx.bin" =
          fs.content "/tmp/ref_dilithium5_ctx.bin" ∧
        (∀ p : Path, p ≠ "/tmp/ref_dilithium5_pk.bin" → p ≠ "/tmp/ref_dilithium5_sig.bin" →
          p ≠ "/tmp/ref_dilithium5_msg.bin" → r.world.fs.content p = fs.content p) ∧
        (∀ (sk2 : Buf P.CRYPTO_SECRETKEYBYTES)
          (signature2 : Bytes → Nat → Bytes → Buf P.CRYPTO_BYTES × Nat),
          signature2 testMessage5 59 sk2.val = (sig, siglen) →
          (dilithium5_sign_ref.main P (pk, sk2) signature2 verify fs).world.fs =
            r.world.fs)) ∧
    (∀ (P : Params) (pk : Buf P.CRYPTO_PUBLICKEYBYTES) (sk : Buf P.CRYPTO_SECRETKEYBYTES)
        (signature : Bytes → Nat → Bytes → Nat → Bytes → Buf P.CRYPTO_BYTES × Nat)
        (verify : Bytes → Nat → Bytes → Nat → Bytes → Nat → Bytes → Int) (fs : FileSystem)
        (sig : Buf P.CRYPTO_BYTES) (siglen : Nat) (r : Run),
        signature testMessage87 58 testContext 4 sk.val = (sig, siglen) →
        verify (sig.val.take siglen) siglen testMessage87 58 testContext 4 pk.val = 0 →
        fs.writable "/tmp/ref_mldsa87_pk.bin" = true →
        fs.writable "/tmp/ref_mldsa87_sig.bin" = true →
        fs.writable "/tmp/ref_mldsa87_msg.bin" = true →
        fs.writable "/tmp/ref_mldsa87_ctx.bin" = true →
        siglen ≤ P.CRYPTO_BYTES →
        mldsa87_sign_ref.main P (pk, sk) signature verify fs = r →
        r.status = .exited 0 ∧
        r.world.fs.content "/tmp/ref_mldsa87_pk.bin" = some pk.val ∧
        pk.val.length = P.CRYPTO_PUBLICKEYBYTES ∧
        r.world.fs.content "/tmp/ref_mldsa87_sig.bin" = some (sig.val.take siglen) ∧
        (sig.val.take siglen).length = siglen ∧
        r.world.fs.content "/tmp/ref_mldsa87_msg.bin" = some testMessage87 ∧
        r.world.fs.content "/tmp/ref_mldsa87_ctx.bin" = some [90, 79, 78, 68] ∧
        (∀ p : Path, p ≠ "/tmp/ref_mldsa87_pk.bin" → p ≠ "/tmp/ref_mldsa87_sig.bin" →
          p ≠ "/tmp/ref_mldsa87_msg.bin" → p ≠ "/tmp/ref_mldsa87_ctx.bin" →
          r.world.fs.content p = fs.content p) ∧
        (∀ (sk2 : Buf P.CRYPTO_SECRETKEYBYTES)
          (signature2 : Bytes → Nat → Bytes → Nat → Bytes → Buf P.CRYPTO_BYTES × Nat),
          signature2 testMessage87 58 testContext 4 sk2.val = (sig, siglen) →
          (mldsa87_sign_ref.main P (pk, sk2) signature2 verify fs).world.fs =
            r.world.fs)) := by
  constructor
  · intro P pk sk signature verify fs sig siglen r hs hv h1 h2 h4 h3 hr
    obtain ⟨hst, -, -, hw, hc⟩ :=
      d5s_success P pk sk signature verify fs sig siglen hs hv h1 h2 h3 h4
    rw [hr] at hst hw hc
    have hsl : (sig.val.take siglen).length = siglen := by
      rw [List.length_take, sig.property]; omega
    refine ⟨hst, ?_, pk.property, ?_, hsl, ?_, ?_, ?_, ?_⟩
    · rw [hc]; simp
    · rw [hc]; simp
    · rw [hc]; simp
    · rw [hc]; simp
    · intro p hp1 hp2 hp3
      rw [hc]; simp [hp1, hp2, hp3]
    · intro sk2 signature2 hs2
      obtain ⟨-, -, -, hw2, hc2⟩ :=
        d5s_success P pk sk2 signature2 verify fs sig siglen hs2 hv h1 h2 h3 h4
      have hcc : (dilithium5_sign_ref.main P (pk, sk2) signature2 verify fs).world.fs.content =
          r.world.fs.content := by
        funext p; rw [hc2, hc]
      cases hfs2 : (dilithium5_sign_ref.main P (pk, sk2) signature2 verify fs).world.fs
      cases hfs : r.world.fs
      rw [hfs2] at hw2 hcc
      rw [hfs] at hw hcc
      simp only at hw2 hcc hw
      rw [hw2, hw, hcc]
  · intro P pk sk signature verify fs sig siglen r hs hv h1 h2 h4 h5 h3 hr
    obtain ⟨hst, -, -, hw, hc⟩ :=
      m87s_success P pk sk signature verify fs sig siglen hs hv h1 h2 h3 h4 h5
    rw [hr] at hst hw hc
    have hsl : (sig.val.take siglen).length = siglen := by
      rw [List.length_take, sig.property]; omega
    refine ⟨hst, ?_, pk.property, ?_, hsl, ?_, ?_, ?_, ?_⟩
    · rw [hc]; simp
    · rw [hc]; simp
    · rw [hc]; simp
    · rw [hc]; simp [testContext]
    · intro p hp1 hp2 hp3 hp4
      rw [hc]; simp [hp1, hp2, hp3, hp4]
    · intro sk2 signature2 hs2
      obtain ⟨-, -, -, hw2, hc2⟩ :=
        m87s_success P pk sk2 signature2 verify fs sig siglen hs2 hv h1 h2 h3 h4 h5
      have hcc : (mldsa87_sign_ref.main P (pk, sk2) signature2 verify fs).world.fs.content =
          r.world.fs.content := by
        funext p; rw [hc2, hc]
      cases hfs2 : (mldsa87_sign_ref.main P (pk, sk2) signature2 verify fs).world.fs
      cases hfs : r.world.fs
      rw [hfs2] at hw2 hcc
      rw [hfs] at hw hcc
      simp only at hw2 hcc hw
      rw [hw2, hw, hcc]

/-- Witness of C4: both signing drivers with a routine accepting all, every path writable. -/
theorem C4_witness :
    (dilithium5_sign_ref.main tinyParams (tinyPk, tinySk) tinySign acceptAll
        (filesOf [])).world.fs.content "/tmp/ref_dilithium5_sig.bin" = some [6, 7, 8] ∧
    (mldsa87_sign_ref.main tinyParams (tinyPk, tinySk) tinySignCtx acceptAllCtx
        (filesOf [])).world.fs.content "/tmp/ref_mldsa87_ctx.bin" = some [90, 79, 78, 68] :=
  ⟨(C4_artifacts_written_on_success.1 tinyParams tinyPk tinySk tinySign acceptAll
      (filesOf []) tinySig 3 _ rfl rfl rfl rfl rfl (by decide) rfl).2.2.2.1,
   (C4_artifacts_written_on_success.2 tinyParams tinyPk tinySk tinySignCtx acceptAllCtx
      (filesOf []) tinySig 3 _ rfl rfl rfl rfl rfl rfl (by decide) rfl).2.2.2.2.2.2.1⟩

/-- C5: for each scheme, when the signing driver exits with code 0 and the files it
wrote are presented, byte for byte, at the paths the verification driver of the same
scheme reads, the verification driver calls `crypto_sign_verify` with exactly the
arguments of the signing driver's self-verification, prints `PASSED` and exits with
code 0. -/
theorem C5_round_trip_sign_then_verify :
    (∀ (P : Params) (pk : Buf P.CRYPTO_PUBLICKEYBYTES) (sk : Buf P.CRYPTO_SECRETKEYBYTES)
        (signature : Bytes → Nat → Bytes → Buf P.CRYPTO_BYTES × Nat)
        (verify : Bytes → Nat → Bytes → Nat → Bytes → Int) (fs fs2 : FileSystem)
        (sig : Buf P.CRYPTO_BYTES) (siglen : Nat) (r1 r2 : Run),
        signature testMessage5 59 sk.val = (sig, siglen) →
        dilithium5_sign_ref.main P (pk, sk) signature verify fs = r1 →
        r1.status = .exited 0 →
        fs2.content "/tmp/qrypto_dilithium5_pk.bin" =
          r1.world.fs.content "/tmp/ref_dilithium5_pk.bin" →
        fs2.content "/tmp/qrypto_dilithium5_sig.bin" =
          r1.world.fs.content "/tmp/ref_dilithium5_sig.bin" →
        fs2.content "/tmp/qrypto_dilithium5_msg.bin" =
          r1.world.fs.content "/tmp/ref_dilithium5_msg.bin" →
        dilithium5_verify_ref.main P verify fs2 = r2 →
        r1.world.calls = [.verify (sig.val.take siglen) siglen testMessage5 59 pk.val] ∧
        r2.world.calls = r1.world.calls ∧
        r2.status = .exited 0 ∧ PASSED ∈ r2.world.stdout ∧ FAILED ∉ r2.world.stdout) ∧
    (∀ (P : Params) (pk : Buf P.CRYPTO_PUBLICKEYBYTES) (sk : Buf P.CRYPTO_SECRETKEYBYTES)
        (signature : Bytes → Nat → Bytes → Nat → Bytes → Buf P.CRYPTO_BYTES × Nat)
        (verify : Bytes → Nat → Bytes → Nat → Bytes → Nat → Bytes → Int)
        (fs fs2 : FileSystem) (sig : Buf P.CRYPTO_BYTES) (siglen : Nat) (r1 r2 : Run),
        signature testMessage87 58 testContext 4 sk.val = (sig, siglen) →
        mldsa87_sign_ref.main P (pk, sk) signature verify fs = r1 →
        r1.status = .exited 0 →
        fs2.content "/tmp/qrypto_mldsa87_pk.bin" =
          r1.world.fs.content "/tmp/ref_mldsa87_pk.bin" →
        fs2.content "/tmp/qrypto_mldsa87_sig.bin" =
          r1.world.fs.content "/tmp/ref_mldsa87_sig.bin" →
        fs2.content "/tmp/qrypto_mldsa87_msg.bin" =
          r1.world.fs.content "/tmp/ref_mldsa87_msg.bin" →
        fs2.content "/tmp/qrypto_mldsa87_ctx.bin" =
          r1.world.fs.content "/tmp/ref_mldsa87_ctx.bin" →
        mldsa87_verify_ref.main P verify fs2 = r2 →
        r1.world.calls =
          [.verify_ctx (sig.val.take siglen) siglen testMessage87 58 testContext 4 pk.val] ∧
        r2.world.calls = r1.world.calls ∧
        r2.status = .exited 0 ∧ PASSED ∈ r2.world.stdout ∧ FAILED ∉ r2.world.stdout) := by
  constructor
  · intro P pk sk signature verify fs fs2 sig siglen r1 r2 hs hr1 hst hpk2 hsig2 hmsg2 hr2
    have hstat := d5s_status P pk sk signature verify fs sig siglen hs
    rw [hr1, hst] at hstat
    by_cases hv : verify (sig.val.take siglen) siglen testMessage5 59 pk.val = 0
    · by_cases hc : fs.writable "/tmp/ref_dilithium5_pk.bin" = true ∧
          fs.writable "/tmp/ref_dilithium5_sig.bin" = true ∧
          siglen ≤ P.CRYPTO_BYTES ∧
          fs.writable "/tmp/ref_dilithium5_msg.bin" = true
      · obtain ⟨h1, h2, h3, h4⟩ := hc
        obtain ⟨-, -, hcalls, -, hcont⟩ :=
          d5s_success P pk sk signature verify fs sig siglen hs hv h1 h2 h3 h4
        rw [hr1] at hcalls hcont
        have e1 : fs2.content "/tmp/qrypto_dilithium5_pk.bin" = some pk.val := by
          rw [hpk2, hcont]; simp
        have e2 : fs2.content "/tmp/qrypto_dilithium5_sig.bin" =
            some (sig.val.take siglen) := by
          rw [hsig2, hcont]; simp
        have e3 : fs2.content "/tmp/qrypto_dilithium5_msg.bin" = some testMessage5 := by
          rw [hmsg2, hcont]; simp
        rw [d5v_loaded P verify fs2 pk.val (sig.val.take siglen) testMessage5 e1
          (le_of_eq pk.property.symm) e2 e3] at hr2
        subst hr2
        rw [hcalls]
        simp only [Buf.take_take_self sig siglen h3, Buf.length_take_le sig siglen h3,
          testMessage5_take, testMessage5_length, Buf.take_self, hv]
        simp [PASSED, FAILED]
      · simp [hv, hc] at hstat
    · simp [hv] at hstat
  · intro P pk sk signature verify fs fs2 sig siglen r1 r2 hs hr1 hst hpk2 hsig2 hmsg2 hctx2
      hr2
    have hstat := m87s_status P pk sk signature verify fs sig siglen hs
    rw [hr1, hst] at hstat
    by_cases hv : verify (sig.val.take siglen) siglen testMessage87 58 testContext 4 pk.val = 0
    · by_cases hc : fs.writable "/tmp/ref_mldsa87_pk.bin" = true ∧
          fs.writable "/tmp/ref_mldsa87_sig.bin" = true ∧
          siglen ≤ P.CRYPTO_BYTES ∧
          fs.writable "/tmp/ref_mldsa87_msg.bin" = true ∧
          fs.writable "/tmp/ref_mldsa87_ctx.bin" = true
      · obtain ⟨h1, h2, h3, h4, h5⟩ := hc
        obtain ⟨-, -, hcalls, -, hcont⟩ :=
          m87s_success P pk sk signature verify fs sig siglen hs hv h1 h2 h3 h4 h5
        rw [hr1] at hcalls hcont
        have e1 : fs2.content "/tmp/qrypto_mldsa87_pk.bin" = some pk.val := by
          rw [hpk2, hcont]; simp
        have e2 : fs2.content "/tmp/qrypto_mldsa87_sig.bin" =
            some (sig.val.take siglen) := by
          rw [hsig2, hcont]; simp
        have e3 : fs2.content "/tmp/qrypto_mldsa87_msg.bin" = some testMessage87 := by
          rw [hmsg2, hcont]; simp
        have e4 : fs2.content "/tmp/qrypto_mldsa87_ctx.bin" = some testContext := by
          rw [hctx2, hcont]; simp
        rw [m87v_loaded P verify fs2 pk.val (sig.val.take siglen) testMessage87 testContext e1
          (le_of_eq pk.property.symm) e2 e3 e4] at hr2
        subst hr2
        rw [hcalls]
        have hcl : testContext.length = 4 := rfl
        simp only [Buf.take_take_self sig siglen h3, Buf.length_take_le sig siglen h3,
          testMessage87_take, testMessage87_length, testContext_take, hcl, Buf.take_self, hv]
        simp [PASSED, FAILED]
      · simp [hv, hc] at hstat
    · simp [hv] at hstat

/-- Witness of C5: a tiny signing run whose files are copied to the verifier's paths. -/
theorem C5_witness :
    (dilithium5_verify_ref.main tinyParams acceptAll
        (filesOf [("/tmp/qrypto_dilithium5_pk.bin", [1, 2]),
          ("/tmp/qrypto_dilithium5_sig.bin", [6, 7, 8]),
          ("/tmp/qrypto_dilithium5_msg.bin", testMessage5)])).status = .exited 0 ∧
    (mldsa87_verify_ref.main tinyParams acceptAllCtx
        (filesOf [("/tmp/qrypto_mldsa87_pk.bin", [1, 2]),
          ("/tmp/qrypto_mldsa87_sig.bin", [6, 7, 8]),
          ("/tmp/qrypto_mldsa87_msg.bin", testMessage87),
          ("/tmp/qrypto_mldsa87_ctx.bin", [90, 79, 78, 68])])).status = .exited 0 :=
  ⟨(C5_round_trip_sign_then_verify.1 tinyParams tinyPk tinySk tinySign acceptAll
      (filesOf []) _ tinySig 3 _ _ rfl rfl (by decide) (by decide) (by decide) (by decide)
      rfl).2.2.1,
   (C5_round_trip_sign_then_verify.2 tinyParams tinyPk tinySk tinySignCtx acceptAllCtx
      (filesOf []) _ tinySig 3 _ _ rfl rfl (by decide) (by decide) (by decide) (by decide)
      (by decide) rfl).2.2.1⟩

/-- C6, as stated, fails: the signature file holds a signature of `CRYPTO_BYTES` bytes
that `crypto_sign_verify` accepts, followed by one extra byte; the Dilithium5 driver
reads only `CRYPTO_BYTES` bytes, prints `PASSED` and exits with code 0. -/
theorem C6_counterexample_padding_beyond_capacity_is_ignored :
    strictVerify (List.replicate 4595 1) (List.replicate 4595 1).length
        (testMessage5.take 256) (testMessage5.take 256).length
        ((List.replicate 2592 0).take dilithium5Params.CRYPTO_PUBLICKEYBYTES) = 0 ∧
    paddedSigFiles.content "/tmp/qrypto_dilithium5_sig.bin" =
        some (List.replicate 4595 1 ++ [0]) ∧
    (dilithium5_verify_ref.main dilithium5Params strictVerify paddedSigFiles).status =
        .exited 0 ∧
    PASSED ∈ (dilithium5_verify_ref.main dilithium5Params strictVerify
        paddedSigFiles).world.stdout ∧
    FAILED ∉ (dilithium5_verify_ref.main dilithium5Params strictVerify
        paddedSigFiles).world.stdout := by
  have hpk : paddedSigFiles.content "/tmp/qrypto_dilithium5_pk.bin" =
      some (List.replicate 2592 0) := rfl
  have hsig : paddedSigFiles.content "/tmp/qrypto_dilithium5_sig.bin" =
      some (List.replicate 4595 1 ++ [0]) := rfl
  have hmsg : paddedSigFiles.content "/tmp/qrypto_dilithium5_msg.bin" =
      some testMessage5 := rfl
  have hlen : dilithium5Params.CRYPTO_PUBLICKEYBYTES ≤ (List.replicate 2592 0).length := by
    rw [List.length_replicate]
    exact Nat.le_refl 2592
  have ht : (List.replicate 4595 1 ++ [0]).take dilithium5Params.CRYPTO_BYTES =
      List.replicate 4595 1 :=
    List.take_left' (List.length_replicate 4595 1)
  have hacc : strictVerify (List.replicate 4595 1) (List.replicate 4595 1).length
      (testMessage5.take 256) (testMessage5.take 256).length
      ((List.replicate 2592 0).take dilithium5Params.CRYPTO_PUBLICKEYBYTES) = 0 := by
    unfold strictVerify
    exact if_pos ⟨List.length_replicate 4595 1, rfl⟩
  refine ⟨hacc, hsig, ?_⟩
  exact d5v_accepts dilithium5Params strictVerify paddedSigFiles _ _ _ hpk hlen hsig hmsg
    (by rw [ht]; exact hacc)

/-- C6, amended: in both cross-verifiers, when the signature file holds an accepted
signature followed by extra bytes, `crypto_sign_verify` is called on the first
`CRYPTO_BYTES` bytes of the file (the whole file if it is shorter), and the driver
prints `FAILED` and exits with code 1 exactly when that call returns nonzero; when the
accepted signature is `CRYPTO_BYTES` long the extra bytes are not read and the driver
prints `PASSED` and exits with code 0. -/
theorem C6_padded_signature_verdict_is_that_of_the_bytes_read :
    (∀ (P : Params) (verify : Bytes → Nat → Bytes → Nat → Bytes → Int) (fs : FileSystem)
        (pk good extra msg : Bytes) (r : Run),
        fs.content "/tmp/qrypto_dilithium5_pk.bin" = some pk →
        P.CRYPTO_PUBLICKEYBYTES ≤ pk.length →
        fs.content "/tmp/qrypto_dilithium5_sig.bin" = some (good ++ extra) →
        extra ≠ [] →
        fs.content "/tmp/qrypto_dilithium5_msg.bin" = some msg →
        verify good good.length (msg.take 256) (msg.take 256).length
          (pk.take P.CRYPTO_PUBLICKEYBYTES) = 0 →
        dilithium5_verify_ref.main P verify fs = r →
        r.world.calls = [.verify ((good ++ extra).take P.CRYPTO_BYTES)
          ((good ++ extra).take P.CRYPTO_BYTES).length (msg.take 256) (msg.take 256).length
          (pk.take P.CRYPTO_PUBLICKEYBYTES)] ∧
        ((r.status = .exited 1 ∧ FAILED ∈ r.world.stdout) ↔
          verify ((good ++ extra).take P.CRYPTO_BYTES)
            ((good ++ extra).take P.CRYPTO_BYTES).length (msg.take 256)
            (msg.take 256).length (pk.take P.CRYPTO_PUBLICKEYBYTES) ≠ 0) ∧
        (good.length = P.CRYPTO_BYTES →
          r.status = .exited 0 ∧ PASSED ∈ r.world.stdout ∧ FAILED ∉ r.world.stdout)) ∧
    (∀ (P : Params) (verify : Bytes → Nat → Bytes → Nat → Bytes → Nat → Bytes → Int)
        (fs : FileSystem) (pk good extra msg ctx : Bytes) (r : Run),
        fs.content "/tmp/qrypto_mldsa87_pk.bin" = some pk →
        P.CRYPTO_PUBLICKEYBYTES ≤ pk.length →
        fs.content "/tmp/qrypto_mldsa87_sig.bin" = some (good ++ extra) →
        extra ≠ [] →
        fs.content "/tmp/qrypto_mldsa87_msg.bin" = some msg →
        fs.content "/tmp/qrypto_mldsa87_ctx.bin" = some ctx →
        verify good good.length (msg.take 256) (msg.take 256).length
          (ctx.take 256) (ctx.take 256).length (pk.take P.CRYPTO_PUBLICKEYBYTES) = 0 →
        mldsa87_verify_ref.main P verify fs = r →
        r.world.calls = [.verify_ctx ((good ++ extra).take P.CRYPTO_BYTES)
          ((good ++ extra).take P.CRYPTO_BYTES).length (msg.take 256) (msg.take 256).length
          (ctx.take 256) (ctx.take 256).length (pk.take P.CRYPTO_PUBLICKEYBYTES)] ∧
        ((r.status = .exited 1 ∧ FAILED ∈ r.world.stdout) ↔
          verify ((good ++ extra).take P.CRYPTO_BYTES)
            ((good ++ extra).take P.CRYPTO_BYTES).length (msg.take 256)
            (msg.take 256).length (ctx.take 256) (ctx.take 256).length
            (pk.take P.CRYPTO_PUBLICKEYBYTES) ≠ 0) ∧
        (good.length = P.CRYPTO_BYTES →
          r.status = .exited 0 ∧ PASSED ∈ r.world.stdout ∧ FAILED ∉ r.world.stdout)) := by
  constructor
  · intro P verify fs pk good extra msg r hpk hlen hsig _ hmsg hgood hr
    rw [d5v_loaded P verify fs pk (good ++ extra) msg hpk hlen hsig hmsg] at hr
    subst hr
    refine ⟨rfl, ?_, ?_⟩
    · generalize verify ((good ++ extra).take P.CRYPTO_BYTES)
          ((good ++ extra).take P.CRYPTO_BYTES).length (msg.take 256)
          (msg.take 256).length (pk.take P.CRYPTO_PUBLICKEYBYTES) = ret
      by_cases hv : ret = 0 <;> simp [hv, PASSED, FAILED]
    · intro hg
      have ht : (good ++ extra).take P.CRYPTO_BYTES = good := List.take_left' hg
      rw [ht, hgood]
      simp [PASSED, FAILED]
  · intro P verify fs pk good extra msg ctx r hpk hlen hsig _ hmsg hctx hgood hr
    rw [m87v_loaded P verify fs pk (good ++ extra) msg ctx hpk hlen hsig hmsg hctx] at hr
    subst hr
    refine ⟨rfl, ?_, ?_⟩
    · generalize verify ((good ++ extra).take P.CRYPTO_BYTES)
          ((good ++ extra).take P.CRYPTO_BYTES).length (msg.take 256)
          (msg.take 256).length (ctx.take 256) (ctx.take 256).length
          (pk.take P.CRYPTO_PUBLICKEYBYTES) = ret
      by_cases hv : ret = 0 <;> simp [hv, PASSED, FAILED]
    · intro hg
      have ht : (good ++ extra).take P.CRYPTO_BYTES = good := List.take_left' hg
      rw [ht, hgood]
      simp [PASSED, FAILED]

/-- Witness of C6 (amended): a signature of full length followed by one byte. -/
theorem C6_witness :
    (dilithium5_verify_ref.main tinyParams acceptAll
        (filesOf [("/tmp/qrypto_dilithium5_pk.bin", [1, 2]),
          ("/tmp/qrypto_dilithium5_sig.bin", [6, 7, 8, 9] ++ [0]),
          ("/tmp/qrypto_dilithium5_msg.bin", [5])])).world.calls =
      [.verify [6, 7, 8, 9] 4 [5] 1 [1, 2]] ∧
    (mldsa87_verify_ref.main tinyParams acceptAllCtx
        (filesOf [("/tmp/qrypto_mldsa87_pk.bin", [1, 2]),
          ("/tmp/qrypto_mldsa87_sig.bin", [6, 7, 8, 9] ++ [0]),
          ("/tmp/qrypto_mldsa87_msg.bin", [5]),
          ("/tmp/qrypto_mldsa87_ctx.bin", [4])])).world.calls =
      [.verify_ctx [6, 7, 8, 9] 4 [5] 1 [4] 1 [1, 2]] :=
  ⟨(C6_padded_signature_verdict_is_that_of_the_bytes_read.1 tinyParams acceptAll _ [1, 2]
      [6, 7, 8, 9] [0] [5] _ rfl (by decide) rfl (by decide) rfl rfl rfl).1,
   (C6_padded_signature_verdict_is_that_of_the_bytes_read.2 tinyParams acceptAllCtx _ [1, 2]
      [6, 7, 8, 9] [0] [5] [4] _ rfl (by decide) rfl (by decide) rfl rfl rfl rfl).1⟩

/-- C7: in both cross-verifiers, once the public key is loaded, a signature file of at
most `CRYPTO_BYTES` bytes, a message file of at most 256 bytes and (ML-DSA-87) a context
file of at most 256 bytes, empty ones included, never make the driver abort: it calls
`crypto_sign_verify` once, with `siglen`, `msglen` and `ctxlen` equal to the byte counts
of the files and with exactly the bytes of the files, and ends with a verdict. -/
theorem C7_short_reads_carry_their_length :
    (∀ (P : Params) (verify : Bytes → Nat → Bytes → Nat → Bytes → Int) (fs : FileSystem)
        (pk sig msg : Bytes) (r : Run),
        fs.content "/tmp/qrypto_dilithium5_pk.bin" = some pk →
        P.CRYPTO_PUBLICKEYBYTES ≤ pk.length →
        fs.content "/tmp/qrypto_dilithium5_sig.bin" = some sig →
        sig.length ≤ P.CRYPTO_BYTES →
        fs.content "/tmp/qrypto_dilithium5_msg.bin" = some msg →
        msg.length ≤ 256 →
        dilithium5_verify_ref.main P verify fs = r →
        r.world.calls =
          [.verify sig sig.length msg msg.length (pk.take P.CRYPTO_PUBLICKEYBYTES)] ∧
        (r.status = .exited 0 ∨ r.status = .exited 1) ∧
        (PASSED ∈ r.world.stdout ∨ FAILED ∈ r.world.stdout) ∧
        (∀ d ∈ r.world.stdout, d ≠ failedToReadPk ∧ d ∉ cannotOpenDiagnostics) ∧
        { fmt := "Sig size: %zu bytes\n", args := [.num sig.length] } ∈ r.world.stdout ∧
        { fmt := "Msg size: %zu bytes\n", args := [.num msg.length] } ∈ r.world.stdout) ∧
    (∀ (P : Params) (verify : Bytes → Nat → Bytes → Nat → Bytes → Nat → Bytes → Int)
        (fs : FileSystem) (pk sig msg ctx : Bytes) (r : Run),
        fs.content "/tmp/qrypto_mldsa87_pk.bin" = some pk →
        P.CRYPTO_PUBLICKEYBYTES ≤ pk.length →
        fs.content "/tmp/qrypto_mldsa87_sig.bin" = some sig →
        sig.length ≤ P.CRYPTO_BYTES →
        fs.content "/tmp/qrypto_mldsa87_msg.bin" = some msg →
        msg.length ≤ 256 →
        fs.content "/tmp/qrypto_mldsa87_ctx.bin" = some ctx →
        ctx.length ≤ 256 →
        mldsa87_verify_ref.main P verify fs = r →
        r.world.calls =
          [.verify_ctx sig sig.length msg msg.length ctx ctx.length
            (pk.take P.CRYPTO_PUBLICKEYBYTES)] ∧
        (r.status = .exited 0 ∨ r.status = .exited 1) ∧
        (PASSED ∈ r.world.stdout ∨ FAILED ∈ r.world.stdout) ∧
        (∀ d ∈ r.world.stdout, d ≠ failedToReadPk ∧ d ∉ cannotOpenDiagnostics) ∧
        { fmt := "Sig size: %zu bytes\n", args := [.num sig.length] } ∈ r.world.stdout ∧
        { fmt := "Msg size: %zu bytes\n", args := [.num msg.length] } ∈ r.world.stdout ∧
        { fmt := "Ctx size: %zu bytes\n", args := [.num ctx.length] } ∈ r.world.stdout) := by
  constructor
  · intro P verify fs pk sig msg r hpk hlen hsig hsl hmsg hml hr
    rw [d5v_loaded P verify fs pk sig msg hpk hlen hsig hmsg] at hr
    subst hr
    rw [List.take_of_length_le hsl, List.take_of_length_le hml]
    by_cases hv : verify sig sig.length msg msg.length (pk.take P.CRYPTO_PUBLICKEYBYTES) = 0 <;>
    simp [hv, PASSED, FAILED, failedToReadPk, cannotOpenDiagnostics]
  · intro P verify fs pk sig msg ctx r hpk hlen hsig hsl hmsg hml hctx hcl hr
    rw [m87v_loaded P verify fs pk sig msg ctx hpk hlen hsig hmsg hctx] at hr
    subst hr
    rw [List.take_of_length_le hsl, List.take_of_length_le hml, List.take_of_length_le hcl]
    by_cases hv : verify sig sig.length msg msg.length ctx ctx.length
        (pk.take P.CRYPTO_PUBLICKEYBYTES) = 0 <;>
    simp [hv, PASSED, FAILED, failedToReadPk, cannotOpenDiagnostics]

/-- Witness of C7: empty signature, message and context files. -/
theorem C7_witness :
    (dilithium5_verify_ref.main tinyParams rejectAll
        (filesOf [("/tmp/qrypto_dilithium5_pk.bin", [1, 2]),
          ("/tmp/qrypto_dilithium5_sig.bin", []),
          ("/tmp/qrypto_dilithium5_msg.bin", [])])).world.calls =
      [.verify [] 0 [] 0 [1, 2]] ∧
    (mldsa87_verify_ref.main tinyParams rejectAllCtx
        (filesOf [("/tmp/qrypto_mldsa87_pk.bin", [1, 2]),
          ("/tmp/qrypto_mldsa87_sig.bin", []),
          ("/tmp/qrypto_mldsa87_msg.bin", []),
          ("/tmp/qrypto_mldsa87_ctx.bin", [])])).world.calls =
      [.verify_ctx [] 0 [] 0 [] 0 [1, 2]] :=
  ⟨(C7_short_reads_carry_their_length.1 tinyParams rejectAll _ [1, 2] [] [] _ rfl
      (by decide) rfl (by decide) rfl (by decide) rfl).1,
   (C7_short_reads_carry_their_length.2 tinyParams rejectAllCtx _ [1, 2] [] [] [] _ rfl
      (by decide) rfl (by decide) rfl (by decide) rfl (by decide) rfl).1⟩

/-- C8, at the failing input: self-verification succeeds and no artifact path can be
opened for writing.  Neither signing driver tests the result of `fopen`: the null
stream goes to `fwrite`, which is undefined behaviour, and up to that point the driver
has printed `Self-verify: PASSED` and no failure diagnostic; no exit code is produced. -/
theorem C8_unwritable_path_is_not_reported :
    (dilithium5_sign_ref.main dilithium5Params
        (zeroBuf dilithium5Params.CRYPTO_PUBLICKEYBYTES,
          zeroBuf dilithium5Params.CRYPTO_SECRETKEYBYTES)
        (fullSign dilithium5Params) acceptAll readOnly).status = .undefined ∧
    (dilithium5_sign_ref.main dilithium5Params
        (zeroBuf dilithium5Params.CRYPTO_PUBLICKEYBYTES,
          zeroBuf dilithium5Params.CRYPTO_SECRETKEYBYTES)
        (fullSign dilithium5Params) acceptAll readOnly).world.stdout =
      [{ fmt := "=== pq-crystals Dilithium5 Signature Generation ===\n", args := [] },
       { fmt := "PK size:  %d bytes\n", args := [.num 2592] },
       { fmt := "SK size:  %d bytes\n", args := [.num 4864] },
       { fmt := "Sig size: %zu bytes\n", args := [.num 4595] },
       { fmt := "Message:  \"%s\"\n", args := [.str testMessage5] },
       { fmt := "Self-verify: PASSED\n", args := [] }] ∧
    (mldsa87_sign_ref.main mldsa87Params
        (zeroBuf mldsa87Params.CRYPTO_PUBLICKEYBYTES,
          zeroBuf mldsa87Params.CRYPTO_SECRETKEYBYTES)
        (fullSignCtx mldsa87Params) acceptAllCtx readOnly).status = .undefined ∧
    (mldsa87_sign_ref.main mldsa87Params
        (zeroBuf mldsa87Params.CRYPTO_PUBLICKEYBYTES,
          zeroBuf mldsa87Params.CRYPTO_SECRETKEYBYTES)
        (fullSignCtx mldsa87Params) acceptAllCtx readOnly).world.stdout =
      [{ fmt := "=== pq-crystals ML-DSA-87 Signature Generation ===\n", args := [] },
       { fmt := "PK size:  %d bytes\n", args := [.num 2592] },
       { fmt := "SK size:  %d bytes\n", args := [.num 4896] },
       { fmt := "Sig size: %zu bytes\n", args := [.num 4627] },
       { fmt := "Context:  \"%s\"\n", args := [.str [90, 79, 78, 68]] },
       { fmt := "Message:  \"%s\"\n", args := [.str testMessage87] },
       { fmt := "Self-verify: PASSED\n", args := [] }] := by
  rw [d5s_unwritable_pk dilithium5Params _ _ (fullSign dilithium5Params) acceptAll readOnly
      (zeroBuf dilithium5Params.CRYPTO_BYTES) dilithium5Params.CRYPTO_BYTES rfl rfl rfl,
    m87s_unwritable_pk mldsa87Params _ _ (fullSignCtx mldsa87Params) acceptAllCtx readOnly
      (zeroBuf mldsa87Params.CRYPTO_BYTES) mldsa87Params.CRYPTO_BYTES rfl rfl rfl]
  exact ⟨rfl, rfl, rfl, rfl⟩

/-- C9, at the failing input: the public key file exists but is empty.  Both
verification drivers return 1 after `Failed to read pk` without calling `fclose`: the
stream opened on the public key file is still open when `main` returns. -/
theorem C9_short_pk_leaves_stream_open :
    (dilithium5_verify_ref.main dilithium5Params acceptAll
        (filesOf [("/tmp/qrypto_dilithium5_pk.bin", [])])).status = .exited 1 ∧
    (dilithium5_verify_ref.main dilithium5Params acceptAll
        (filesOf [("/tmp/qrypto_dilithium5_pk.bin", [])])).world.streams =
      [{ path := "/tmp/qrypto_dilithium5_pk.bin" }] ∧
    (mldsa87_verify_ref.main mldsa87Params acceptAllCtx
        (filesOf [("/tmp/qrypto_mldsa87_pk.bin", [])])).status = .exited 1 ∧
    (mldsa87_verify_ref.main mldsa87Params acceptAllCtx
        (filesOf [("/tmp/qrypto_mldsa87_pk.bin", [])])).world.streams =
      [{ path := "/tmp/qrypto_mldsa87_pk.bin" }] := by
  rw [d5v_short_pk dilithium5Params acceptAll _ [] (by decide) (by decide),
    m87v_short_pk mldsa87Params acceptAllCtx _ [] (by decide) (by decide)]
  exact ⟨rfl, rfl, rfl, rfl⟩

/-- C10: in both cross-verifiers the exit code, the call of `crypto_sign_verify` and the
output depend only on which artifact files exist and on the first
`CRYPTO_PUBLICKEYBYTES` bytes of the public key file, the first `CRYPTO_BYTES` bytes of
the signature file, the first 256 bytes of the message file and (ML-DSA-87) the first
256 bytes of the context file: two file systems that agree on these give the same run.
The Dilithium5 run is unchanged by storing anything at any other path, a context file
included. -/
theorem C10_only_the_bytes_read_matter :
    (∀ (P : Params) (verify : Bytes → Nat → Bytes → Nat → Bytes → Int)
        (fs1 fs2 : FileSystem),
        (fs1.content "/tmp/qrypto_dilithium5_pk.bin").map
            (List.take P.CRYPTO_PUBLICKEYBYTES) =
          (fs2.content "/tmp/qrypto_dilithium5_pk.bin").map
            (List.take P.CRYPTO_PUBLICKEYBYTES) →
        (fs1.content "/tmp/qrypto_dilithium5_sig.bin").map (List.take P.CRYPTO_BYTES) =
          (fs2.content "/tmp/qrypto_dilithium5_sig.bin").map (List.take P.CRYPTO_BYTES) →
        (fs1.content "/tmp/qrypto_dilithium5_msg.bin").map (List.take 256) =
          (fs2.content "/tmp/qrypto_dilithium5_msg.bin").map (List.take 256) →
        (dilithium5_verify_ref.main P verify fs1).status =
          (dilithium5_verify_ref.main P verify fs2).status ∧
        (dilithium5_verify_ref.main P verify fs1).world.calls =
          (dilithium5_verify_ref.main P verify fs2).world.calls ∧
        (dilithium5_verify_ref.main P verify fs1).world.stdout =
          (dilithium5_verify_ref.main P verify fs2).world.stdout) ∧
    (∀ (P : Params) (verify : Bytes → Nat → Bytes → Nat → Bytes → Nat → Bytes → Int)
        (fs1 fs2 : FileSystem),
        (fs1.content "/tmp/qrypto_mldsa87_pk.bin").map (List.take P.CRYPTO_PUBLICKEYBYTES) =
          (fs2.content "/tmp/qrypto_mldsa87_pk.bin").map
            (List.take P.CRYPTO_PUBLICKEYBYTES) →
        (fs1.content "/tmp/qrypto_mldsa87_sig.bin").map (List.take P.CRYPTO_BYTES) =
          (fs2.content "/tmp/qrypto_mldsa87_sig.bin").map (List.take P.CRYPTO_BYTES) →
        (fs1.content "/tmp/qrypto_mldsa87_msg.bin").map (List.take 256) =
          (fs2.content "/tmp/qrypto_mldsa87_msg.bin").map (List.take 256) →
        (fs1.content "/tmp/qrypto_mldsa87_ctx.bin").map (List.take 256) =
          (fs2.content "/tmp/qrypto_mldsa87_ctx.bin").map (List.take 256) →
        (mldsa87_verify_ref.main P verify fs1).status =
          (mldsa87_verify_ref.main P verify fs2).status ∧
        (mldsa87_verify_ref.main P verify fs1).world.calls =
          (mldsa87_verify_ref.main P verify fs2).world.calls ∧
        (mldsa87_verify_ref.main P verify fs1).world.stdout =
          (mldsa87_verify_ref.main P verify fs2).world.stdout) ∧
    (∀ (P : Params) (verify : Bytes → Nat → Bytes → Nat → Bytes → Int) (fs : FileSystem)
        (path : Path) (data : Bytes),
        path ≠ "/tmp/qrypto_dilithium5_pk.bin" →
        path ≠ "/tmp/qrypto_dilithium5_sig.bin" →
        path ≠ "/tmp/qrypto_dilithium5_msg.bin" →
        (dilithium5_verify_ref.main P verify (fs.store path data)).status =
          (dilithium5_verify_ref.main P verify fs).status ∧
        (dilithium5_verify_ref.main P verify (fs.store path data)).world.calls =
          (dilithium5_verify_ref.main P verify fs).world.calls ∧
        (dilithium5_verify_ref.main P verify (fs.store path data)).world.stdout =
          (dilithium5_verify_ref.main P verify fs).world.stdout) := by
  refine ⟨?_, ?_, ?_⟩
  · intro P verify fs1 fs2 hpk hsig hmsg
    exact d5v_agree P verify fs1 fs2 hpk hsig hmsg
  · intro P verify fs1 fs2 hpk hsig hmsg hctx
    exact m87v_agree P verify fs1 fs2 hpk hsig hmsg hctx
  · intro P verify fs path data h1 h2 h3
    apply d5v_agree P verify (fs.store path data) fs
    · simp [FileSystem.store, Ne.symm h1]
    · simp [FileSystem.store, Ne.symm h2]
    · simp [FileSystem.store, Ne.symm h3]

/-- Witness of C10: files longer than the buffers against their truncations, and a
context file stored next to the Dilithium5 artifacts. -/
theorem C10_witness :
    (dilithium5_verify_ref.main tinyParams acceptAll
        (filesOf [("/tmp/qrypto_dilithium5_pk.bin", [1, 2, 99]),
          ("/tmp/qrypto_dilithium5_sig.bin", [3, 4, 5, 6, 7]),
          ("/tmp/qrypto_dilithium5_msg.bin", [8])])).status =
      (dilithium5_verify_ref.main tinyParams acceptAll
        (filesOf [("/tmp/qrypto_dilithium5_pk.bin", [1, 2]),
          ("/tmp/qrypto_dilithium5_sig.bin", [3, 4, 5, 6]),
          ("/tmp/qrypto_dilithium5_msg.bin", [8])])).status ∧
    (mldsa87_verify_ref.main tinyParams acceptAllCtx
        (filesOf [("/tmp/qrypto_mldsa87_pk.bin", [1, 2, 99]),
          ("/tmp/qrypto_mldsa87_sig.bin", [3, 4, 5, 6, 7]),
          ("/tmp/qrypto_mldsa87_msg.bin", [8]),
          ("/tmp/qrypto_mldsa87_ctx.bin", [9])])).status =
      (mldsa87_verify_ref.main tinyParams acceptAllCtx
        (filesOf [("/tmp/qrypto_mldsa87_pk.bin", [1, 2]),
          ("/tmp/qrypto_mldsa87_sig.bin", [3, 4, 5, 6]),
          ("/tmp/qrypto_mldsa87_msg.bin", [8]),
          ("/tmp/qrypto_mldsa87_ctx.bin", [9])])).status ∧
    (dilithium5_verify_ref.main tinyParams acceptAll
        ((filesOf []).store "/tmp/qrypto_dilithium5_ctx.bin" [9])).status =
      (dilithium5_verify_ref.main tinyParams acceptAll (filesOf [])).status :=
  ⟨(C10_only_the_bytes_read_matter.1 tinyParams acceptAll _ _ (by decide) (by decide)
      (by decide)).1,
   (C10_only_the_bytes_read_matter.2.1 tinyParams acceptAllCtx _ _ (by decide) (by decide)
      (by decide) (by decide)).1,
   (C10_only_the_bytes_read_matter.2.2 tinyParams acceptAll (filesOf [])
      "/tmp/qrypto_dilithium5_ctx.bin" [9] (by decide) (by decide) (by decide)).1⟩

end CrossVerify
